import Mathlib

/-!
Shallow embedding of the YULU highway-traffic simulation (the `etc_sim`
package).  Python floats are modelled as real numbers, `math.sqrt` as
`Real.sqrt`, Python dictionaries as insertion-ordered association lists,
and Python's `int(x)` cast as truncation toward zero.  Every definition is
translated from the source file named in its doc comment.
-/

open scoped Classical

namespace EtcSim

/-- Python `int(x)` on a real value: truncation toward zero. -/
noncomputable def pyInt (x : ℝ) : ℤ := if 0 ≤ x then ⌊x⌋ else -⌊-x⌋

/-- Translated from `config/parameters.py::SimulationConfig` (the fields the
simulation core reads, with their defaults). -/
structure SimulationConfig where
  road_length_km : ℝ := 20.0
  segment_length_km : ℝ := 2.0
  num_lanes : ℤ := 4
  lane_width : ℝ := 3.5
  total_vehicles : ℕ := 1200
  simulation_dt : ℝ := 1.0
  max_simulation_time : ℝ := 3900
  anomaly_ratio : ℝ := 0.01
  global_anomaly_start : ℝ := 200
  vehicle_safe_run_time : ℝ := 200
  forced_change_dist : ℝ := 400
  lane_change_gap : ℝ := 25

/-- Translated from `SimulationConfig.num_segments`:
`int(road_length_km / segment_length_km)`. -/
noncomputable def SimulationConfig.num_segments (c : SimulationConfig) : ℤ :=
  pyInt (c.road_length_km / c.segment_length_km)

/-- The default configuration (`SimulationConfig()` with no overrides). -/
def defaultConfig : SimulationConfig := {}

/-- Vehicle anomaly state machine states (`vehicle.anomaly_state` strings
`normal` / `active` / `cooling`). -/
inductive AnomalyState where
  | normal
  | active
  | cooling
deriving DecidableEq

/-- Vehicle types of `VEHICLE_TYPE_CONFIG` in `core/vehicle.py`. -/
inductive VehicleType where
  | car
  | truck
  | bus
deriving DecidableEq

/-- Driver styles of `DRIVER_STYLE_CONFIG` in `core/vehicle.py`. -/
inductive DriverStyle where
  | aggressive
  | conservative
  | normal
deriving DecidableEq

/-- Reason attached to a lane-change decision (`'free'` / `'forced'`). -/
inductive LaneChangeReason where
  | free
  | forced
deriving DecidableEq

/-- State of one vehicle, translated from `core/vehicle.py::Vehicle.__init__`
plus the attributes assigned later by its methods.  The IDM exponent
`delta` is 4.0 for every vehicle type, so it is embedded as a natural
exponent.  `target_speed_override` is only read while an anomaly is
active (it is always assigned on activation); it starts at 0 here. -/
structure Vehicle where
  id : ℕ
  lane : ℤ
  pos : ℝ
  lateral : ℝ
  vehicle_type : VehicleType
  driver_style : DriverStyle
  v0 : ℝ
  a_max : ℝ
  b_desired : ℝ
  s0 : ℝ
  T : ℝ
  delta : ℕ
  length : ℝ
  aggressiveness_range : ℝ × ℝ
  politeness_range : ℝ × ℝ
  politeness : ℝ
  reaction_time : ℝ
  desired_speed : ℝ
  speed : ℝ
  lane_change_cooldown : ℝ
  lane_changing : Bool
  lane_change_step : ℕ
  lane_change_target : Option ℤ
  lane_change_start_time : ℝ
  lane_change_start_pos : ℝ
  lane_change_start_lane : ℤ
  lane_change_end_lane : ℤ
  is_potential_anomaly : Bool
  anomaly_type : ℕ
  anomaly_state : AnomalyState
  anomaly_timer : ℝ
  cooldown_timer : ℝ
  anomaly_trigger_time : Option ℝ
  first_detection_time : Option ℝ
  anomaly_response_times : List ℝ
  detected_by_etc : Bool
  etc_detection_time : Option ℝ
  target_speed_override : ℝ
  logs : List (ℤ × ℝ × ℝ)
  current_segment : ℤ
  entry_time : ℝ
  finished : Bool
  exit_time : Option ℝ
  lane_changes : ℕ
  total_lane_changes : ℕ
  is_affected : Bool
  min_ttc : ℝ
  max_decel : ℝ
  brake_count : ℕ
  emergency_brake_count : ℕ
  safety_violations : ℕ
  visited_gates : List ℤ

namespace Vehicle

/-- Translated from `core/vehicle.py::Vehicle.idm_calc_acceleration`
(lines 208-252).  The staged-braking override applies to an active
full-stop (type-1) leader; otherwise the IDM formula with emergency
scaling and the final hard clamp. -/
noncomputable def idm_calc_acceleration (self : Vehicle) (leader : Option Vehicle)
    (current_speed : ℝ) : ℝ :=
  match leader with
  | none => self.a_max
  | some leader =>
    let v := current_speed
    let v0 := self.v0
    let a_max := self.a_max * self.aggressiveness_range.1
    let b := self.b_desired
    if leader.anomaly_type = 1 ∧ leader.anomaly_state = AnomalyState.active then
      let dist := leader.pos - self.pos
      let s := max (dist - self.length / 2 - leader.length / 2) 0.5
      if s > 200 then
        max (-1.5) (-v * 0.1)
      else if s > 100 then
        -1.5 - 2.5 * ((200 - s) / 100)
      else if s > 30 then
        -4.0 - 3.0 * ((100 - s) / 70)
      else
        -7.0
    else
      let delta_v := v - leader.speed
      let dist := leader.pos - self.pos
      let s := max (dist - self.length / 2 - leader.length / 2) 0.5
      let s_star := self.s0 + v * self.T + v * delta_v / (2 * Real.sqrt (a_max * b))
      let ratio_v := (v / v0) ^ self.delta
      let ratio_s := (s_star / s) ^ 2
      let accel := a_max * (1 - ratio_v - ratio_s)
      let time_gap := s / max v 0.1
      let accel2 := if time_gap < 1.5 ∨ delta_v > 3 then accel * 1.2 else accel
      max (-7.0) (min (a_max * 1.5) accel2)

/-- Translated from `Vehicle._find_leader_in_lane` (lines 310-320): the
strictly nearest vehicle ahead of `self` in the given lane; a strictly
smaller distance replaces the running best, as in the Python scan. -/
noncomputable def find_leader_in_lane (self : Vehicle) (lane : ℤ) (nearby : List Vehicle) :
    Option Vehicle :=
  nearby.foldl
    (fun best v =>
      if v.lane = lane ∧ v.pos > self.pos then
        match best with
        | none => some v
        | some b => if v.pos - self.pos < b.pos - self.pos then some v else some b
      else best)
    none

/-- Translated from `Vehicle._find_leader` (lines 298-308); the loop is the
same scan as `_find_leader_in_lane` applied to the vehicle's own lane. -/
noncomputable def find_leader (self : Vehicle) (nearby : List Vehicle) : Option Vehicle :=
  self.find_leader_in_lane self.lane nearby

/-- Translated from `Vehicle._find_follower_in_lane` (lines 322-332). -/
noncomputable def find_follower_in_lane (self : Vehicle) (lane : ℤ) (nearby : List Vehicle) :
    Option Vehicle :=
  nearby.foldl
    (fun best v =>
      if v.lane = lane ∧ v.pos < self.pos then
        match best with
        | none => some v
        | some b => if self.pos - v.pos < self.pos - b.pos then some v else some b
      else best)
    none

/-- Translated from `Vehicle._can_change_to` (lines 334-349).  The blocked
dictionary is an association list of (lane, position) entries; the method
returns False when a blocking position for the target lane is within
100 m, or any vehicle in the target lane is within the minimum gap. -/
def can_change_to (self : Vehicle) (cfg : SimulationConfig) (target_lane : ℤ)
    (nearby : List Vehicle) (blocked : List (ℤ × ℝ)) : Prop :=
  (∀ p ∈ blocked, p.1 = target_lane → ¬ |p.2 - self.pos| < 100) ∧
  (∀ v ∈ nearby, v.lane = target_lane → ¬ |v.pos - self.pos| < cfg.lane_change_gap)

/-- Translated from `Vehicle._calc_lane_gain` (lines 285-296): a lane with
no leader is worth a flat 1.0; otherwise the difference of the IDM
accelerations behind the target-lane leader and the current leader. -/
noncomputable def calc_lane_gain (self : Vehicle) (target_lane : ℤ)
    (nearby : List Vehicle) (current_leader : Option Vehicle) : ℝ :=
  match self.find_leader_in_lane target_lane nearby with
  | none => 1.0
  | some leader =>
    let a_current :=
      match current_leader with
      | some cl => self.idm_calc_acceleration (some cl) self.speed
      | none => self.a_max
    let a_new := self.idm_calc_acceleration (some leader) self.speed
    a_new - a_current

/-- Translated from `Vehicle._try_forced_lane_change` (lines 351-358):
first feasible adjacent lane wins, scanning lane-1 then lane+1. -/
noncomputable def try_forced_lane_change (self : Vehicle) (cfg : SimulationConfig)
    (nearby : List Vehicle) (blocked : List (ℤ × ℝ)) :
    Option ℤ × Option LaneChangeReason :=
  if 0 ≤ self.lane - 1 ∧ self.lane - 1 < cfg.num_lanes ∧
      self.can_change_to cfg (self.lane - 1) nearby blocked then
    (some (self.lane - 1), some LaneChangeReason.forced)
  else if 0 ≤ self.lane + 1 ∧ self.lane + 1 < cfg.num_lanes ∧
      self.can_change_to cfg (self.lane + 1) nearby blocked then
    (some (self.lane + 1), some LaneChangeReason.forced)
  else
    (none, none)

/-- The candidate scan of `Vehicle.mobil_decision` (lines 268-283): both
adjacent lanes are tried in order lane-1, lane+1; a candidate must be an
existing feasible lane whose gain exceeds the running best gain by the
fixed margin 0.1.  The running best gain is updated when the first
candidate is taken, exactly as in the Python loop. -/
noncomputable def mobil_free_scan (self : Vehicle) (cfg : SimulationConfig)
    (nearby : List Vehicle) (blocked : List (ℤ × ℝ)) (leader : Option Vehicle) :
    Option ℤ × Option LaneChangeReason :=
  let current_gain := self.calc_lane_gain self.lane nearby leader
  let cand1 := self.lane - 1
  let gain1 := self.calc_lane_gain cand1 nearby leader
  let ok1 := 0 ≤ cand1 ∧ cand1 < cfg.num_lanes ∧
    self.can_change_to cfg cand1 nearby blocked ∧ gain1 > current_gain + 0.1
  let best1 := if ok1 then gain1 else current_gain
  let target1 : Option ℤ := if ok1 then some cand1 else none
  let cand2 := self.lane + 1
  let gain2 := self.calc_lane_gain cand2 nearby leader
  let ok2 := 0 ≤ cand2 ∧ cand2 < cfg.num_lanes ∧
    self.can_change_to cfg cand2 nearby blocked ∧ gain2 > best1 + 0.1
  let target2 : Option ℤ := if ok2 then some cand2 else target1
  match target2 with
  | some t => (some t, some LaneChangeReason.free)
  | none => (none, none)

/-- Translated from `core/vehicle.py::Vehicle.mobil_decision`
(lines 256-283).  A type-1 leader within `forced_change_dist` takes the
forced path unconditionally (even when no lane is feasible the method
returns there); otherwise the free candidate scan runs. -/
noncomputable def mobil_decision (self : Vehicle) (cfg : SimulationConfig)
    (nearby : List Vehicle) (blocked : List (ℤ × ℝ)) :
    Option ℤ × Option LaneChangeReason :=
  match self.find_leader nearby with
  | some l =>
    if l.anomaly_type = 1 ∧ l.pos - self.pos < cfg.forced_change_dist then
      self.try_forced_lane_change cfg nearby blocked
    else
      self.mobil_free_scan cfg nearby blocked (some l)
  | none => self.mobil_free_scan cfg nearby blocked none

/-- Translated from `Vehicle.start_lane_change` (lines 360-375).  The
Boolean result is ignored by the caller, so only the state change is
modelled. -/
noncomputable def start_lane_change (self : Vehicle) (target_lane : ℤ)
    (current_time : ℝ) : Vehicle :=
  if self.lane_change_cooldown > 0 ∨ self.lane_changing then self
  else
    { self with
      lane_changing := true
      lane_change_step := 0
      lane_change_target := some target_lane
      lane_change_start_time := current_time
      lane_change_start_pos := self.pos
      lane_change_start_lane := self.lane
      lane_change_end_lane := target_lane
      lane_changes := self.lane_changes + 1
      total_lane_changes := self.total_lane_changes + 1 }

/-- Translated from `Vehicle.update_lane_change` (lines 377-395), with
`LANE_CHANGE_STEPS = 5`. -/
noncomputable def update_lane_change (self : Vehicle) (cfg : SimulationConfig)
    (dt : ℝ) : Vehicle :=
  if ¬ self.lane_changing then self
  else
    let step := self.lane_change_step + 1
    let t : ℝ := (step : ℝ) / 5
    let lane_diff : ℝ := ((self.lane_change_end_lane - self.lane_change_start_lane : ℤ) : ℝ)
    let self2 :=
      { self with
        lane_change_step := step
        lateral := (lane_diff * cfg.lane_width / 2) * (1 - Real.cos (Real.pi * t))
        pos := self.lane_change_start_pos + self.speed * dt * t }
    if step ≥ 5 then
      { self2 with
        lane := self2.lane_change_end_lane
        lane_changing := false
        lane_change_cooldown := 5.0
        lateral := lane_diff * cfg.lane_width / 2 }
    else
      self2

/-- Membership in the per-vehicle segment log dictionary. -/
def logsHas (logs : List (ℤ × ℝ × ℝ)) (k : ℤ) : Prop :=
  ∃ e ∈ logs, e.1 = k

/-- Set the `out` time of a segment log entry. -/
def logsSetOut (logs : List (ℤ × ℝ × ℝ)) (k : ℤ) (t : ℝ) : List (ℤ × ℝ × ℝ) :=
  logs.map fun e => if e.1 = k then (e.1, e.2.1, t) else e

/-- Translated from `Vehicle.record_time` (lines 564-582): mark the vehicle
finished past the last segment, otherwise maintain the per-segment
in/out time dictionary. -/
noncomputable def record_time (self : Vehicle) (cfg : SimulationConfig)
    (time_now : ℝ) (seg_idx : ℤ) : Vehicle :=
  if seg_idx ≥ cfg.num_segments then
    { self with finished := true, exit_time := some time_now }
  else if seg_idx ≠ self.current_segment then
    let logs1 :=
      if logsHas self.logs self.current_segment then
        logsSetOut self.logs self.current_segment time_now
      else self.logs
    let logs2 :=
      if logsHas logs1 seg_idx then logs1 else logs1 ++ [(seg_idx, time_now, time_now)]
    { self with current_segment := seg_idx, logs := logs2 }
  else
    let logs2 :=
      if logsHas self.logs seg_idx then logsSetOut self.logs seg_idx time_now
      else self.logs ++ [(seg_idx, time_now, time_now)]
    { self with logs := logs2 }

/-- Translated from `Vehicle._update_safety_metrics` (lines 545-562).
When there is no leader the distance argument is never read (the Python
code passes infinity there). -/
noncomputable def update_safety_metrics (self : Vehicle) (leader : Option Vehicle)
    (dist accel : ℝ) : Vehicle :=
  let s1 :=
    match leader with
    | some l =>
      if l.speed < self.speed ∧ self.speed - l.speed > 0.1 then
        { self with min_ttc := min self.min_ttc (dist / (self.speed - l.speed)) }
      else self
    | none => self
  let s2 := if accel < 0 then { s1 with max_decel := max s1.max_decel (-accel) } else s1
  let s3 := if accel < -2.0 then { s2 with brake_count := s2.brake_count + 1 } else s2
  let s4 :=
    if accel < -4.0 then { s3 with emergency_brake_count := s3.emergency_brake_count + 1 }
    else s3
  if s4.min_ttc < 1.0 then { s4 with safety_violations := s4.safety_violations + 1 } else s4

/-- The explicit-Euler speed integration and clamp of `Vehicle.update`
(lines 536-537): `speed += accel*dt; speed = max(0, min(v0*1.1, speed))`. -/
noncomputable def integrate_speed (self : Vehicle) (accel dt : ℝ) : Vehicle :=
  let s1 := { self with speed := self.speed + accel * dt }
  { s1 with speed := max 0 (min (s1.v0 * 1.1) s1.speed) }

/-- The leader lookup of `Vehicle.update` (lines 472-478): no leader while
a lane change is in progress.  The returned distance is only read under a
present leader (the source initialises it to infinity). -/
noncomputable def update_find_leader (self : Vehicle) (nearby : List Vehicle) :
    Option Vehicle × ℝ :=
  if self.lane_changing then (none, 0)
  else
    match self.find_leader nearby with
    | some l => (some l, l.pos - self.pos)
    | none => (none, 0)

/-- The anomaly-timer block of `Vehicle.update` (lines 483-494).  The
locals `target_speed` and `max_decel` assigned there are never read by
the kinematic update, so only the timer state machine remains. -/
noncomputable def update_anomaly_timer (self : Vehicle) (dt : ℝ) : Vehicle :=
  if self.anomaly_state = AnomalyState.active then
    let sa := { self with anomaly_timer := self.anomaly_timer - dt }
    if sa.anomaly_timer ≤ 0 ∧ sa.anomaly_type ≠ 1 then
      { sa with anomaly_state := AnomalyState.cooling, cooldown_timer := 1000 }
    else sa
  else self

/-- The response-time recording of `Vehicle.update` (lines 496-506): the
only observable effect of the stopped-leader branch (the `target_speed`
local it also assigns is dead).  Python truthiness of
`leader.anomaly_trigger_time` coincides with presence, as trigger times
are at least `global_anomaly_start` > 0. -/
noncomputable def update_response_time (self : Vehicle) (leader : Option Vehicle)
    (dist current_time : ℝ) : Vehicle :=
  match leader with
  | some l =>
    if ¬ self.lane_changing ∧ l.anomaly_type = 1 ∧ dist < 150 then
      match l.anomaly_trigger_time, self.first_detection_time with
      | some tl, none =>
        { self with
          anomaly_response_times := self.anomaly_response_times ++ [current_time - tl]
          first_detection_time := some current_time }
      | _, _ => self
    else self
  | none => self

/-- The lane-change intent block of `Vehicle.update` (lines 508-518): a
close or blocked-by-anomaly leader triggers a MOBIL decision once the
cooldown has elapsed. -/
noncomputable def update_lane_intent (self : Vehicle) (cfg : SimulationConfig)
    (nearby : List Vehicle) (blocked : List (ℤ × ℝ)) (leader : Option Vehicle)
    (dist current_time : ℝ) : Vehicle :=
  if self.lane_changing then self
  else
    let want_change : Prop :=
      match leader with
      | some l => dist < self.speed * 2 + 15 ∨ (l.anomaly_type = 1 ∧ dist < 200)
      | none => False
    if want_change ∧ self.lane_change_cooldown ≤ 0 then
      match (self.mobil_decision cfg nearby blocked).1 with
      | some target_lane => self.start_lane_change target_lane current_time
      | none => self
    else self

/-- The acceleration computation of `Vehicle.update` (lines 523-534): the
IDM kernel, overridden for an active anomaly (gradual stop for type 1,
clamped tracking of the speed override otherwise). -/
noncomputable def update_accel (self : Vehicle) (leader : Option Vehicle)
    (dt : ℝ) : ℝ :=
  let accel := self.idm_calc_acceleration leader self.speed
  if self.anomaly_state = AnomalyState.active then
    if self.anomaly_type = 1 then
      if self.speed > 1.0 then max (-7.0) (-self.speed / max dt 0.5 * 0.5)
      else -self.speed / max dt 0.1
    else max (-4.0) (min 3.0 ((self.target_speed_override - self.speed) / dt))
  else accel

/-- The position integration of `Vehicle.update` (lines 539-540). -/
noncomputable def update_position (self : Vehicle) (dt : ℝ) : Vehicle :=
  if self.lane_changing then self else { self with pos := self.pos + self.speed * dt }

/-- Translated from `core/vehicle.py::Vehicle.update` (lines 464-543),
assembled from the phase functions above in source order. -/
noncomputable def update (self : Vehicle) (cfg : SimulationConfig) (dt : ℝ)
    (nearby : List Vehicle) (blocked : List (ℤ × ℝ)) (current_time : ℝ) : Vehicle :=
  if self.finished then self
  else
    let s1 := { self with lane_change_cooldown := self.lane_change_cooldown - dt }
    let ld := s1.update_find_leader nearby
    let s2 := s1.update_anomaly_timer dt
    let s3 := s2.update_response_time ld.1 ld.2 current_time
    let s4 := s3.update_lane_intent cfg nearby blocked ld.1 ld.2 current_time
    let s5 := if s4.lane_changing then s4.update_lane_change cfg dt else s4
    let accel2 := s5.update_accel ld.1 dt
    let s6 := s5.integrate_speed accel2 dt
    let s7 := s6.update_position dt
    s7.update_safety_metrics ld.1 ld.2 accel2

end Vehicle

namespace IDMModel

/-- Translated from `core/car_following.py::IDMModel.calc_acceleration`
(lines 16-81); the computation is the same as
`Vehicle.idm_calc_acceleration`, with the default `current_speed=None`
(meaning the vehicle's own speed) made explicit. -/
noncomputable def calc_acceleration (vehicle : Vehicle) (leader : Option Vehicle)
    (current_speed : ℝ) : ℝ :=
  match leader with
  | none => vehicle.a_max
  | some leader =>
    let v := current_speed
    let v0 := vehicle.v0
    let a_max := vehicle.a_max * vehicle.aggressiveness_range.1
    let b := vehicle.b_desired
    if leader.anomaly_type = 1 ∧ leader.anomaly_state = AnomalyState.active then
      let dist := leader.pos - vehicle.pos
      let s := max (dist - vehicle.length / 2 - leader.length / 2) 0.5
      if s > 200 then
        max (-1.5) (-v * 0.1)
      else if s > 100 then
        -1.5 - 2.5 * ((200 - s) / 100)
      else if s > 30 then
        -4.0 - 3.0 * ((100 - s) / 70)
      else
        -7.0
    else
      let delta_v := v - leader.speed
      let dist := leader.pos - vehicle.pos
      let s := max (dist - vehicle.length / 2 - leader.length / 2) 0.5
      let s_star := vehicle.s0 + v * vehicle.T +
        v * delta_v / (2 * Real.sqrt (a_max * b))
      let ratio_v := (v / v0) ^ vehicle.delta
      let ratio_s := (s_star / s) ^ 2
      let accel := a_max * (1 - ratio_v - ratio_s)
      let time_gap := s / max v 0.1
      let accel2 := if time_gap < 1.5 ∨ delta_v > 3 then accel * 1.2 else accel
      max (-7.0) (min (a_max * 1.5) accel2)

end IDMModel

namespace MOBILModel

/-- Translated from `core/lane_change.py::MOBILModel._find_leader`
(lines 71-83): nearest vehicle ahead of `vehicle` in the given lane. -/
noncomputable def find_leader (vehicle : Vehicle) (nearby : List Vehicle)
    (lane : ℤ) : Option Vehicle :=
  nearby.foldl
    (fun best v =>
      if v.lane = lane ∧ v.pos > vehicle.pos then
        match best with
        | none => some v
        | some b => if v.pos - vehicle.pos < b.pos - vehicle.pos then some v else some b
      else best)
    none

/-- Translated from `MOBILModel._find_follower` (lines 85-97). -/
noncomputable def find_follower (vehicle : Vehicle) (nearby : List Vehicle)
    (lane : ℤ) : Option Vehicle :=
  nearby.foldl
    (fun best v =>
      if v.lane = lane ∧ v.pos < vehicle.pos then
        match best with
        | none => some v
        | some b => if vehicle.pos - v.pos < vehicle.pos - b.pos then some v else some b
      else best)
    none

/-- Translated from `MOBILModel._calc_lane_gain` (lines 100-146): the full
MOBIL utility, including the politeness-weighted follower terms and the
fixed lane-change penalty 0.001.  The follower's hypothetical new leader
is computed by `_find_leader(vehicle, ...)` exactly as in the source
(which scans ahead of the focal vehicle, not of the follower). -/
noncomputable def calc_lane_gain (vehicle : Vehicle) (nearby : List Vehicle)
    (target_lane : ℤ) (current_leader : Option Vehicle) (_current_lane : ℤ) : ℝ :=
  let a_current :=
    match current_leader with
    | some cl => vehicle.idm_calc_acceleration (some cl) vehicle.speed
    | none => vehicle.a_max
  let a_new :=
    match find_leader vehicle nearby target_lane with
    | some l => vehicle.idm_calc_acceleration (some l) vehicle.speed
    | none => vehicle.a_max
  let follower := find_follower vehicle nearby target_lane
  let a_follower_current : ℝ :=
    match follower with
    | some f =>
      f.idm_calc_acceleration
        (if vehicle.lane = target_lane then some vehicle else none) f.speed
    | none => 0
  let a_follower_new : ℝ :=
    match follower with
    | some f =>
      if vehicle.lane ≠ target_lane then
        match find_leader vehicle nearby target_lane with
        | some nfl => f.idm_calc_acceleration (some nfl) f.speed
        | none => 0
      else 0
    | none => 0
  (a_new - a_current) - vehicle.politeness * (a_follower_new - a_follower_current) - 0.001

/-- Translated from `MOBILModel._can_change_to` (lines 148-164); the
minimum gap is hard-coded to 25 m in this class. -/
noncomputable def can_change_to (vehicle : Vehicle) (nearby : List Vehicle)
    (target_lane : ℤ) (blocked : List (ℤ × ℝ)) : Prop :=
  (∀ p ∈ blocked, p.1 = target_lane → ¬ |p.2 - vehicle.pos| < 100) ∧
  (∀ v ∈ nearby, v.lane = target_lane → ¬ |v.pos - vehicle.pos| < 25)

/-- Translated from `MOBILModel._try_emergency_change` (lines 166-174);
the lane count is hard-coded to 4 in this class. -/
noncomputable def try_emergency_change (vehicle : Vehicle) (nearby : List Vehicle)
    (current_lane : ℤ) (blocked : List (ℤ × ℝ)) : Option ℤ :=
  if 0 ≤ current_lane - 1 ∧ current_lane - 1 < 4 ∧
      can_change_to vehicle nearby (current_lane - 1) blocked then
    some (current_lane - 1)
  else if 0 ≤ current_lane + 1 ∧ current_lane + 1 < 4 ∧
      can_change_to vehicle nearby (current_lane + 1) blocked then
    some (current_lane + 1)
  else
    none

/-- Translated from `core/lane_change.py::MOBILModel.decide_lane_change`
(lines 15-69): the politeness-adjusted threshold
`0.1 + 0.4 * (1 - politeness)` lives in this class method, which is
exported by `core/__init__` but never invoked by `Vehicle.update`. -/
noncomputable def decide_lane_change (vehicle : Vehicle) (nearby : List Vehicle)
    (current_lane : ℤ) (blocked : List (ℤ × ℝ)) (politeness : ℝ) :
    Option ℤ × Option LaneChangeReason :=
  let leader := find_leader vehicle nearby current_lane
  let forced : Option ℤ :=
    match leader with
    | some l =>
      if l.anomaly_type = 1 then try_emergency_change vehicle nearby current_lane blocked
      else none
    | none => none
  match forced with
  | some t => (some t, some LaneChangeReason.forced)
  | none =>
    let best0 := calc_lane_gain vehicle nearby current_lane leader current_lane
    let threshold := 0.1 + 0.4 * (1 - politeness)
    let cand1 := current_lane - 1
    let gain1 := calc_lane_gain vehicle nearby cand1 leader current_lane
    let ok1 := 0 ≤ cand1 ∧ cand1 < 4 ∧
      can_change_to vehicle nearby cand1 blocked ∧ gain1 > best0 + threshold
    let best1 := if ok1 then gain1 else best0
    let target1 : Option ℤ := if ok1 then some cand1 else none
    let cand2 := current_lane + 1
    let gain2 := calc_lane_gain vehicle nearby cand2 leader current_lane
    let ok2 := 0 ≤ cand2 ∧ cand2 < 4 ∧
      can_change_to vehicle nearby cand2 blocked ∧ gain2 > best1 + threshold
    let target2 : Option ℤ := if ok2 then some cand2 else target1
    match target2 with
    | some t => (some t, some LaneChangeReason.free)
    | none => (none, none)

end MOBILModel

/-- Translated from `core/vehicle.py::kmh_to_ms`. -/
noncomputable def kmh_to_ms (v : ℝ) : ℝ := v / 3.6

/-- A concrete vehicle holding the CAR row of `VEHICLE_TYPE_CONFIG` and the
normal-driver style row, with the sampled quantities fixed to concrete
values (used as an input for evaluating the kernels). -/
noncomputable def testCar : Vehicle where
  id := 1
  lane := 0
  pos := 0
  lateral := 0
  vehicle_type := VehicleType.car
  driver_style := DriverStyle.normal
  v0 := kmh_to_ms 120
  a_max := 3.0
  b_desired := 3.5
  s0 := 2.0
  T := 1.5
  delta := 4
  length := 4.5
  aggressiveness_range := (0.95, 1.05)
  politeness_range := (0.4, 0.6)
  politeness := 0.5
  reaction_time := 1.0
  desired_speed := kmh_to_ms 120
  speed := 0
  lane_change_cooldown := 0
  lane_changing := false
  lane_change_step := 0
  lane_change_target := none
  lane_change_start_time := 0
  lane_change_start_pos := 0
  lane_change_start_lane := 0
  lane_change_end_lane := 0
  is_potential_anomaly := false
  anomaly_type := 0
  anomaly_state := AnomalyState.normal
  anomaly_timer := 0
  cooldown_timer := 0
  anomaly_trigger_time := none
  first_detection_time := none
  anomaly_response_times := []
  detected_by_etc := false
  etc_detection_time := none
  target_speed_override := 0
  logs := []
  current_segment := 0
  entry_time := 0
  finished := false
  exit_time := none
  lane_changes := 0
  total_lane_changes := 0
  is_affected := false
  min_ttc := 999.0
  max_decel := 0
  brake_count := 0
  emergency_brake_count := 0
  safety_violations := 0
  visited_gates := []

/-- Formalisation of the C3 claim sentence (spec §4.2): the free-flow IDM
acceleration `a_max * (1 - (v / v0) ^ delta)`. -/
noncomputable def specFreeFlowAccel (veh : Vehicle) (v : ℝ) : ℝ :=
  veh.a_max * (1 - (v / veh.v0) ^ veh.delta)

/-- A same-lane leader 14.5 m ahead of `testCar` (gap 10 m after the
half-length corrections). -/
noncomputable def testLeaderA : Vehicle := { testCar with id := 2, pos := 14.5 }

/-- A leader in the adjacent lane 1, 204.5 m ahead of `testCar` (gap
200 m after the half-length corrections). -/
noncomputable def testLeaderB : Vehicle := { testCar with id := 3, lane := 1, pos := 204.5 }

/-- Formalisation of the C4 claim sentence (spec §4.3): the MOBIL utility
`a_new - a_current - politeness * (a_follower_new - a_follower_current)`
of a hypothetical move of `veh` into `target_lane`, where the follower
terms are the target-lane follower's IDM accelerations before and after
the hypothetical change. -/
noncomputable def specMobilUtility (veh : Vehicle) (target_lane : ℤ)
    (nearby : List Vehicle) : ℝ :=
  let current_leader := veh.find_leader nearby
  let a_current :=
    match current_leader with
    | some l => veh.idm_calc_acceleration (some l) veh.speed
    | none => veh.a_max
  let a_new :=
    match veh.find_leader_in_lane target_lane nearby with
    | some l => veh.idm_calc_acceleration (some l) veh.speed
    | none => veh.a_max
  let follower_term :=
    match veh.find_follower_in_lane target_lane nearby with
    | some f =>
      let a_follower_current :=
        match f.find_leader_in_lane target_lane nearby with
        | some l => f.idm_calc_acceleration (some l) f.speed
        | none => f.a_max
      let a_follower_new := f.idm_calc_acceleration (some veh) f.speed
      a_follower_new - a_follower_current
    | none => 0
  a_new - a_current - veh.politeness * follower_term

/-- Formalisation of the C4 claim threshold: the politeness-adjusted
threshold `0.1 + 0.4 * (1 - politeness)`. -/
noncomputable def specMobilThreshold (veh : Vehicle) : ℝ :=
  0.1 + 0.4 * (1 - veh.politeness)

/-- Association-list lookup (Python dictionary access by key). -/
def alistLookup {κ α : Type} [DecidableEq κ] (l : List (κ × α)) (k : κ) : Option α :=
  (l.find? fun e => decide (e.1 = k)).map Prod.snd

/-- Association-list update: assigning to an existing key keeps its
position (Python dictionaries preserve insertion order); a new key is
appended. -/
def alistSet {κ α : Type} [DecidableEq κ] (l : List (κ × α)) (k : κ) (v : α) :
    List (κ × α) :=
  if (l.find? fun e => decide (e.1 = k)).isSome then
    l.map fun e => if e.1 = k then (k, v) else e
  else
    l ++ [(k, v)]

/-- Append to a bounded deque (`collections.deque(maxlen := n)`): the
oldest entries are dropped once the buffer is full. -/
def dequePush (maxlen : ℕ) (xs : List ℝ) (x : ℝ) : List ℝ :=
  let ys := xs ++ [x]
  if ys.length > maxlen then ys.drop (ys.length - maxlen) else ys

/-- Translated from `models/etc_anomaly_detector.py::ETCTransaction`.
Gate id strings `G02`, `G04`, ... are embedded as their km numbers; the
`status` string is embedded as a flag for `anomaly` versus `normal`. -/
structure ETCTransaction where
  vehicle_id : ℕ
  gate_id : ℤ
  gate_position_km : ℝ
  timestamp : ℝ
  lane : ℤ
  speed : ℝ
  status_anomaly : Bool

/-- Translated from `models/etc_anomaly_detector.py::GateStatistics`
(`recent_flows` and `flow_rate` are never written by the detector and are
omitted). -/
structure GateStatistics where
  gate_id : ℤ
  position_km : ℝ
  recent_travel_times : List ℝ
  recent_speeds : List ℝ
  avg_travel_time : ℝ
  std_travel_time : ℝ
  avg_speed : ℝ
  outlier_count : ℕ
  consecutive_outliers : ℕ

/-- A freshly registered gate statistic (dataclass defaults). -/
def GateStatistics.init (gid : ℤ) (pos : ℝ) : GateStatistics :=
  ⟨gid, pos, [], [], 0, 0, 0, 0, 0⟩

/-- Alert severity strings of the detector and the rule engine. -/
inductive Severity where
  | low
  | medium
  | high
  | critical
deriving DecidableEq

/-- Alert type strings of `AnomalyAlert.alert_type`. -/
inductive AlertType where
  | congestion
  | incident
  | slow_down
deriving DecidableEq

/-- Translated from `models/etc_anomaly_detector.py::AnomalyAlert` (the
description string is omitted). -/
structure AnomalyAlert where
  alert_type : AlertType
  severity : Severity
  gate_id : ℤ
  position_km : ℝ
  timestamp : ℝ
  confidence : ℝ
  affected_lanes : List ℤ

/-- Translated from `models/etc_anomaly_detector.py::ETCAnomalyDetector`
state (`__init__`). -/
structure ETCAnomalyDetector where
  gate_stats : List (ℤ × GateStatistics)
  vehicle_last_gate : List (ℕ × ℤ × ℝ)
  active_alerts : List AnomalyAlert
  alert_history : List AnomalyAlert
  transactions : List ETCTransaction

/-- The empty detector (`ETCAnomalyDetector()`). -/
def ETCAnomalyDetector.init : ETCAnomalyDetector := ⟨[], [], [], [], []⟩

/-- Translated from `ETCAnomalyDetector.register_gate` (lines 97-103). -/
def ETCAnomalyDetector.register_gate (d : ETCAnomalyDetector) (gid : ℤ) (pos : ℝ) :
    ETCAnomalyDetector :=
  if (alistLookup d.gate_stats gid).isSome then d
  else { d with gate_stats := d.gate_stats ++ [(gid, GateStatistics.init gid pos)] }

/-- Translated from `ETCAnomalyDetector._check_travel_time_outlier`
(lines 164-201), with the class constants `TT_OUTLIER_SIGMA = 2.0`, the
ratio threshold `1.5` and `CONSECUTIVE_THRESHOLD = 3` inlined.  Returns
the optional alert together with the mutated gate statistics. -/
noncomputable def ETCAnomalyDetector.check_travel_time_outlier
    (gs : GateStatistics) (travel_time : ℝ) (tx : ETCTransaction) :
    Option AnomalyAlert × GateStatistics :=
  if gs.std_travel_time < 0.1 then (none, gs)
  else
    let z_score := (travel_time - gs.avg_travel_time) / gs.std_travel_time
    if z_score > 2.0 ∨ travel_time > gs.avg_travel_time * 1.5 then
      let gs2 := { gs with
        outlier_count := gs.outlier_count + 1
        consecutive_outliers := gs.consecutive_outliers + 1 }
      if gs2.consecutive_outliers ≥ 3 then
        let severity := if gs2.consecutive_outliers ≥ 5 then Severity.high else Severity.medium
        (some { alert_type := AlertType.congestion
                severity := severity
                gate_id := gs2.gate_id
                position_km := gs2.position_km
                timestamp := tx.timestamp
                confidence := min 0.9 (0.5 + (gs2.consecutive_outliers : ℝ) * 0.1)
                affected_lanes := [tx.lane] }, gs2)
      else
        (none, gs2)
    else
      (none, { gs with consecutive_outliers := 0 })

/-- Translated from `ETCAnomalyDetector._check_speed_anomaly`
(lines 203-224), with `SPEED_ALERT_THRESHOLD = 30` inlined. -/
noncomputable def ETCAnomalyDetector.check_speed_anomaly (gs : GateStatistics)
    (tx : ETCTransaction) : Option AnomalyAlert :=
  let speed_kmh := tx.speed * 3.6
  if speed_kmh < 30 ∧ gs.recent_speeds.length ≥ 3 then
    let recent := gs.recent_speeds.drop (gs.recent_speeds.length - 3)
    if ∀ s ∈ recent, s < 30 then
      some { alert_type := AlertType.slow_down
             severity := Severity.low
             gate_id := gs.gate_id
             position_km := gs.position_km
             timestamp := tx.timestamp
             confidence := 0.6
             affected_lanes := [tx.lane] }
    else none
  else none

/-- Translated from `ETCAnomalyDetector.record_transaction` (lines
105-162): append the transaction, update the speed statistics, follow the
travel-time path when the vehicle has a prior gate record, update the
last-gate map, fall back to the speed-anomaly check, and record any
alert. -/
noncomputable def ETCAnomalyDetector.record_transaction (d : ETCAnomalyDetector)
    (tx : ETCTransaction) : Option AnomalyAlert × ETCAnomalyDetector :=
  let d1 := { d with transactions := d.transactions ++ [tx] }
  let d2 :=
    if (alistLookup d1.gate_stats tx.gate_id).isSome then d1
    else d1.register_gate tx.gate_id tx.gate_position_km
  let gs0 := (alistLookup d2.gate_stats tx.gate_id).getD
    (GateStatistics.init tx.gate_id tx.gate_position_km)
  let speeds := dequePush 50 gs0.recent_speeds (tx.speed * 3.6)
  let gs1 := { gs0 with
    recent_speeds := speeds
    avg_speed := speeds.sum / (speeds.length : ℝ) }
  let step2 : Option AnomalyAlert × GateStatistics :=
    match alistLookup d2.vehicle_last_gate tx.vehicle_id with
    | some lastrec =>
      let travel_time := tx.timestamp - lastrec.2
      if travel_time > 0 ∧ (alistLookup d2.gate_stats lastrec.1).isSome then
        let tts := dequePush 50 gs1.recent_travel_times travel_time
        let gsA := { gs1 with recent_travel_times := tts }
        if tts.length ≥ 5 then
          let avg := tts.sum / (tts.length : ℝ)
          let variance := ((tts.map fun t => (t - avg) ^ 2).sum) / (tts.length : ℝ)
          let std := if variance > 0 then Real.sqrt variance else 1.0
          let gsB := { gsA with avg_travel_time := avg, std_travel_time := std }
          ETCAnomalyDetector.check_travel_time_outlier gsB travel_time tx
        else (none, gsA)
      else (none, gs1)
    | none => (none, gs1)
  let gs2 := step2.2
  let d3 := { d2 with
    vehicle_last_gate := alistSet d2.vehicle_last_gate tx.vehicle_id (tx.gate_id, tx.timestamp)
    gate_stats := alistSet d2.gate_stats tx.gate_id gs2 }
  let alert : Option AnomalyAlert :=
    match step2.1 with
    | some a => some a
    | none => ETCAnomalyDetector.check_speed_anomaly gs2 tx
  match alert with
  | some a =>
    (some a, { d3 with
      active_alerts := d3.active_alerts ++ [a]
      alert_history := d3.alert_history ++ [a] })
  | none => (none, d3)

/-- A gate statistic for gate G04 whose travel-time ring buffer is full
(50 entries of 10 s) and whose consecutive-outlier count is zero. -/
noncomputable def testGateStat : GateStatistics :=
  { gate_id := 4
    position_km := 4
    recent_travel_times := List.replicate 50 10
    recent_speeds := []
    avg_travel_time := 10
    std_travel_time := 1
    avg_speed := 0
    outlier_count := 0
    consecutive_outliers := 0 }

/-- A detector with gates G02 and G04 registered, the G04 travel-time
buffer full, and vehicle 7 last seen at G02 at time 100. -/
noncomputable def testDetector : ETCAnomalyDetector :=
  { gate_stats := [(2, GateStatistics.init 2 2), (4, testGateStat)]
    vehicle_last_gate := [(7, (2, 100))]
    active_alerts := []
    alert_history := []
    transactions := [] }

/-- A transaction of vehicle 7 crossing G04 at time 200 (travel time
100 s from G02, far above the buffered 10 s). -/
noncomputable def testTx : ETCTransaction :=
  { vehicle_id := 7
    gate_id := 4
    gate_position_km := 4
    timestamp := 200
    lane := 0
    speed := 30
    status_anomaly := false }

/-- Same gate statistic but with two outliers already in a row; used to
exhibit the detector actually firing on the third consecutive outlier. -/
noncomputable def testGateStatStreak : GateStatistics :=
  { testGateStat with
    avg_travel_time := 590/50
    std_travel_time := 12.6
    consecutive_outliers := 2 }

/-- Modelled from the spec (§5, Determinism): all stochastic choices `must
draw from one seeded generator threaded through the engine`.  Python's
global `random` generator (a Mersenne twister, outside this repository)
is modelled as a deterministic state machine: the seed plus a draw
counter, with a congruential output word. -/
structure Rng where
  seed : ℕ
  counter : ℕ

/-- One raw draw of the modelled generator. -/
def Rng.next (g : Rng) : ℕ × Rng :=
  (((g.seed + g.counter) * 1103515245 + 12345) % 2147483648, ⟨g.seed, g.counter + 1⟩)

/-- Python `random.random()`: a draw in [0, 1). -/
noncomputable def Rng.random (g : Rng) : ℝ × Rng :=
  let (n, g2) := g.next
  ((n : ℝ) / 2147483648, g2)

/-- Python `random.uniform(a, b)`. -/
noncomputable def Rng.uniform (g : Rng) (a b : ℝ) : ℝ × Rng :=
  let (u, g2) := g.random
  (a + (b - a) * u, g2)

/-- Python `random.gauss(mu, sigma)`, modelled as a Box-Muller transform
of two uniform draws. -/
noncomputable def Rng.gauss (g : Rng) (mu sigma : ℝ) : ℝ × Rng :=
  let (u1, g2) := g.random
  let (u2, g3) := g2.random
  (mu + sigma * (Real.sqrt (-2 * Real.log (1 - u1)) * Real.cos (2 * Real.pi * u2)), g3)

/-- Python `random.expovariate(rate)` (inverse-transform sampling). -/
noncomputable def Rng.expovariate (g : Rng) (rate : ℝ) : ℝ × Rng :=
  let (u, g2) := g.random
  (-Real.log (1 - u) / rate, g2)

/-- Python `random.randint(a, b)` (both bounds inclusive). -/
def Rng.randint (g : Rng) (a b : ℤ) : ℤ × Rng :=
  let (n, g2) := g.next
  (a + (n : ℤ) % (b - a + 1), g2)

/-- Fisher-Yates extraction loop for `random.shuffle`. -/
def Rng.shuffleAux {α : Type} : ℕ → Rng → List α → List α → List α × Rng
  | 0, g, xs, acc => (acc ++ xs, g)
  | fuel + 1, g, xs, acc =>
    match xs with
    | [] => (acc, g)
    | _ :: _ =>
      let (n, g2) := g.next
      let i := n % xs.length
      match xs.get? i with
      | some x => Rng.shuffleAux fuel g2 (xs.eraseIdx i) (acc ++ [x])
      | none => (acc ++ xs, g2)

/-- Python `random.shuffle`, modelled as a Fisher-Yates pass driven by the
generator. -/
def Rng.shuffle {α : Type} (g : Rng) (xs : List α) : List α × Rng :=
  Rng.shuffleAux xs.length g xs []

/-- Translated from `core/vehicle.py::ms_to_kmh`. -/
noncomputable def ms_to_kmh (v : ℝ) : ℝ := v * 3.6

/-- One row of `VEHICLE_TYPE_CONFIG` (the sampling weight is kept with the
sampler below). -/
structure VehicleTypeConfig where
  v0_kmh : ℝ
  a_max : ℝ
  b_desired : ℝ
  s0 : ℝ
  T : ℝ
  delta : ℕ
  length : ℝ
  reaction_time : ℝ × ℝ

/-- Translated from `core/vehicle.py::VEHICLE_TYPE_CONFIG`. -/
noncomputable def vehicleTypeConfig : VehicleType → VehicleTypeConfig
  | VehicleType.car => ⟨120, 3.0, 3.5, 2.0, 1.5, 4, 4.5, (0.8, 1.2)⟩
  | VehicleType.truck => ⟨100, 2.0, 2.5, 2.5, 1.8, 4, 12.0, (1.0, 1.5)⟩
  | VehicleType.bus => ⟨90, 1.8, 2.2, 2.2, 1.6, 4, 10.0, (0.9, 1.3)⟩

/-- One row of `DRIVER_STYLE_CONFIG`. -/
structure DriverStyleConfig where
  politeness : ℝ × ℝ
  aggressiveness : ℝ × ℝ
  reaction_time_factor : ℝ × ℝ

/-- Translated from `core/vehicle.py::DRIVER_STYLE_CONFIG`. -/
noncomputable def driverStyleConfig : DriverStyle → DriverStyleConfig
  | DriverStyle.aggressive => ⟨(0.1, 0.3), (1.1, 1.3), (0.8, 1.0)⟩
  | DriverStyle.conservative => ⟨(0.6, 0.8), (0.8, 0.95), (1.2, 1.5)⟩
  | DriverStyle.normal => ⟨(0.4, 0.6), (0.95, 1.05), (1.0, 1.2)⟩

/-- The weighted draw `random.choices(types, weights=[0.60, 0.25, 0.15])`
of `_init_vehicle_type`, modelled as one uniform draw against the
cumulative weights (CAR 0.60, TRUCK 0.25, BUS 0.15). -/
noncomputable def sampleVehicleType (g : Rng) : VehicleType × Rng :=
  let (u, g2) := g.random
  (if u < 0.60 then VehicleType.car
   else if u < 0.85 then VehicleType.truck
   else VehicleType.bus, g2)

/-- The weighted draw `random.choices(styles, weights=[0.20, 0.20, 0.60])`
of `_init_driver_style` in the dictionary order aggressive,
conservative, normal. -/
noncomputable def sampleDriverStyle (g : Rng) : DriverStyle × Rng :=
  let (u, g2) := g.random
  (if u < 0.20 then DriverStyle.aggressive
   else if u < 0.40 then DriverStyle.conservative
   else DriverStyle.normal, g2)

/-- Translated from `Vehicle.__init__` together with `_init_vehicle_type`
and `_init_driver_style` (core/vehicle.py lines 105-204): sample the type
row, the desired speed (a clamped gaussian around the type's speed limit
scaled by a uniform factor), the style row, politeness, reaction time and
the potential-anomaly flag; the initial speed is the desired speed. -/
noncomputable def Vehicle.init (v_id : ℕ) (entry_time : ℝ) (lane : ℤ)
    (cfg : SimulationConfig) (g : Rng) : Vehicle × Rng :=
  let d1 := sampleVehicleType g
  let vt := d1.1
  let row := vehicleTypeConfig vt
  let d2 := d1.2.gauss row.v0_kmh 8
  let base_speed := max 50 (min 140 d2.1)
  let d3 := d2.2.uniform 0.9 1.1
  let desired := kmh_to_ms (base_speed * d3.1)
  let d4 := sampleDriverStyle d3.2
  let ds := d4.1
  let srow := driverStyleConfig ds
  let d5 := d4.2.uniform srow.politeness.1 srow.politeness.2
  let pol := d5.1
  let d6 := d5.2.uniform row.reaction_time.1 row.reaction_time.2
  let rt := d6.1
  let d7 := d6.2.random
  let pa := d7.1
  let g7 := d7.2
  ({ id := v_id
     lane := lane
     pos := 0
     lateral := 0
     vehicle_type := vt
     driver_style := ds
     v0 := kmh_to_ms row.v0_kmh
     a_max := row.a_max
     b_desired := row.b_desired
     s0 := row.s0
     T := row.T
     delta := row.delta
     length := row.length
     aggressiveness_range := srow.aggressiveness
     politeness_range := srow.politeness
     politeness := pol
     reaction_time := rt
     desired_speed := desired
     speed := desired
     lane_change_cooldown := 0
     lane_changing := false
     lane_change_step := 0
     lane_change_target := none
     lane_change_start_time := 0
     lane_change_start_pos := 0
     lane_change_start_lane := 0
     lane_change_end_lane := 0
     is_potential_anomaly := if pa < cfg.anomaly_ratio then true else false
     anomaly_type := 0
     anomaly_state := AnomalyState.normal
     anomaly_timer := 0
     cooldown_timer := 0
     anomaly_trigger_time := none
     first_detection_time := none
     anomaly_response_times := []
     detected_by_etc := false
     etc_detection_time := none
     target_speed_override := 0
     logs := []
     current_segment := 0
     entry_time := entry_time
     finished := false
     exit_time := none
     lane_changes := 0
     total_lane_changes := 0
     is_affected := false
     min_ttc := 999.0
     max_decel := 0
     brake_count := 0
     emergency_brake_count := 0
     safety_violations := 0
     visited_gates := [] }, g7)

/-- One entry of the engine's anomaly log (`Vehicle.trigger_anomaly`
return dictionary). -/
structure AnomalyLog where
  id : ℕ
  anomaly_type : ℕ
  time : ℝ
  pos_km : ℝ
  segment : ℤ
  min_speed : ℝ

/-- The activation block of `Vehicle.trigger_anomaly` (lines 435-460): set
the active state, the per-type target-speed override and timer, and build
the log entry. -/
noncomputable def Vehicle.activate_anomaly (self : Vehicle) (current_time : ℝ)
    (segment_idx : ℤ) (g : Rng) : Option AnomalyLog × Vehicle × Rng :=
  let base := { self with
    anomaly_state := AnomalyState.active
    anomaly_trigger_time := some current_time }
  let mk : Vehicle → AnomalyLog := fun s =>
    { id := s.id
      anomaly_type := s.anomaly_type
      time := current_time
      pos_km := s.pos / 1000
      segment := segment_idx
      min_speed := ms_to_kmh s.target_speed_override }
  if self.anomaly_type = 1 then
    let s2 := { base with target_speed_override := 0, anomaly_timer := 999999 }
    (some (mk s2), s2, g)
  else if self.anomaly_type = 2 then
    let (u, g1) := g.uniform 0 40
    let s2 := { base with target_speed_override := kmh_to_ms u, anomaly_timer := 10 }
    (some (mk s2), s2, g1)
  else
    let (u, g1) := g.uniform 0 40
    let s2 := { base with target_speed_override := kmh_to_ms u, anomaly_timer := 20 }
    (some (mk s2), s2, g1)

/-- Translated from `core/vehicle.py::Vehicle.trigger_anomaly`
(lines 399-460), coin flips drawn from the shared generator. -/
noncomputable def Vehicle.trigger_anomaly (self : Vehicle) (cfg : SimulationConfig)
    (current_time : ℝ) (segment_idx : ℤ) (g : Rng) :
    Option AnomalyLog × Vehicle × Rng :=
  if ¬ self.is_potential_anomaly then (none, self, g)
  else if self.anomaly_state = AnomalyState.active then (none, self, g)
  else if self.anomaly_state = AnomalyState.cooling then
    let s2 := { self with cooldown_timer := self.cooldown_timer - 1 }
    if s2.cooldown_timer ≤ 0 then
      (none, { s2 with anomaly_state := AnomalyState.normal }, g)
    else (none, s2, g)
  else if current_time < cfg.global_anomaly_start then (none, self, g)
  else if current_time - self.entry_time < cfg.vehicle_safe_run_time then (none, self, g)
  else
    let anomaly_prob := cfg.anomaly_ratio * 0.5
    if self.anomaly_type = 0 then
      let (u, g1) := g.random
      if u < anomaly_prob then
        let (r, g2) := g1.random
        let newType : ℕ := if r < 0.33 then 1 else if r < 0.66 then 2 else 3
        Vehicle.activate_anomaly { self with anomaly_type := newType }
          current_time segment_idx g2
      else (none, self, g1)
    else if self.anomaly_type = 2 ∨ self.anomaly_type = 3 then
      let (u, g1) := g.random
      if u < 0.3 then Vehicle.activate_anomaly self current_time segment_idx g1
      else (none, self, g1)
    else (none, self, g)

/-- Stable insertion of a real into a sorted list (used for Python's
`list.sort()` / `sorted()` on spawn times). -/
noncomputable def insertSortedReal (x : ℝ) : List ℝ → List ℝ
  | [] => [x]
  | y :: ys => if x ≤ y then x :: y :: ys else y :: insertSortedReal x ys

/-- Python `sorted()` on a list of reals (insertion sort). -/
noncomputable def sortReal (xs : List ℝ) : List ℝ :=
  xs.foldr insertSortedReal []

namespace VehicleSpawner

/-- The `FLOW_PROFILES[FlowMode.UNIFORM]` profile; the engine always
constructs the spawner with the default `flow_mode="uniform"`. -/
noncomputable def uniformProfile : List (ℝ × ℝ) := [(0, 1.0), (3600, 1.0)]

/-- The interior linear-interpolation scan of `_get_flow_rate`
(spawner.py lines 139-146). -/
noncomputable def interpolateProfile : List (ℝ × ℝ) → ℝ → ℝ
  | p0 :: p1 :: rest, t =>
    if p0.1 ≤ t ∧ t < p1.1 then
      p0.2 + ((t - p0.1) / (p1.1 - p0.1)) * (p1.2 - p0.2)
    else interpolateProfile (p1 :: rest) t
  | _, _ => 1.0

/-- Translated from `VehicleSpawner._get_flow_rate` (lines 121-146). -/
noncomputable def get_flow_rate (profile : List (ℝ × ℝ)) (t : ℝ) : ℝ :=
  match profile with
  | [] => 1.0
  | p0 :: rest =>
    if t ≤ p0.1 then p0.2
    else
      let plast := (p0 :: rest).getLast (by simp)
      if t ≥ plast.1 then plast.2
      else interpolateProfile (p0 :: rest) t

/-- The flow-curve integral estimation loop of `_generate_schedule`
(lines 157-162), sampled every 10 s. -/
noncomputable def integrateFlow (profile : List (ℝ × ℝ)) (max_time : ℝ) :
    ℕ → ℝ → ℝ → ℝ
  | 0, _, acc => acc
  | fuel + 1, t, acc =>
    if t < max_time then
      integrateFlow profile max_time fuel (t + 10) (acc + get_flow_rate profile t * 10)
    else acc

/-- State of the non-uniform Poisson generation loop. -/
structure ScheduleLoopState where
  schedule : List ℝ
  generated : ℕ
  t : ℝ
  platoon_id : ℕ
  rng : Rng

/-- The platoon inner loop of `_generate_schedule` (lines 192-202): each
platoon member draws a fresh uniform spacing factor. -/
noncomputable def platoonLoop (total : ℕ) (t : ℝ) :
    ℕ → ℕ → List ℝ → Rng → ℕ → List ℝ × ℕ × Rng
  | _, generated, sched, g, 0 => (sched, generated, g)
  | j, generated, sched, g, fuel + 1 =>
    if generated ≥ total then (sched, generated, g)
    else
      let (u, g1) := g.uniform 0.5 2.0
      platoonLoop total t (j + 1) (generated + 1) (sched ++ [t + (j : ℝ) * u]) g1 fuel

/-- The non-uniform Poisson main loop of `_generate_schedule`
(lines 169-212), bounded by an explicit fuel (the Python loop advances a
real-valued clock). -/
noncomputable def scheduleLoop (total : ℕ) (max_time base_rate : ℝ) :
    ℕ → ScheduleLoopState → ScheduleLoopState
  | 0, st => st
  | fuel + 1, st =>
    if st.generated < total ∧ st.t < max_time * 1.5 then
      let rate := max (get_flow_rate uniformProfile st.t * base_rate) 0.01
      let (interval, g1) := st.rng.expovariate rate
      let t2 := st.t + interval
      if t2 > max_time * 1.5 then { st with t := t2, rng := g1 }
      else
        let (u, g2) := g1.random
        if u < 0.15 ∧ st.generated + 3 < total then
          let (psize0, g3) := g2.randint 3 6
          let psize := min psize0.toNat (total - st.generated)
          let (sched2, gen2, g4) :=
            platoonLoop total t2 0 st.generated st.schedule g3 psize
          scheduleLoop total max_time base_rate fuel
            { schedule := sched2
              generated := gen2
              t := t2 + (psize : ℝ) * 1.5
              platoon_id := st.platoon_id + 1
              rng := g4 }
        else
          scheduleLoop total max_time base_rate fuel
            { st with
              schedule := st.schedule ++ [t2]
              generated := st.generated + 1
              t := t2
              rng := g2 }
    else st

/-- The completion loop of `_generate_schedule` (lines 215-223). -/
noncomputable def fillRemaining : ℕ → ℝ → List ℝ → Rng → List ℝ × Rng
  | 0, _, sched, g => (sched, g)
  | n + 1, t, sched, g =>
    let (u, g1) := g.uniform 1.0 5.0
    fillRemaining n (t + u) (sched ++ [t + u]) g1

/-- Translated from `simulation/spawner.py::VehicleSpawner._generate_schedule`
(lines 148-225) for the uniform flow mode the engine uses: estimate the
base rate from the integrated flow curve, run the Poisson loop (with
platoon bursts), top up to the target count, and sort. -/
noncomputable def generate_schedule (total : ℕ) (g : Rng) (fuel : ℕ) :
    List ℝ × Rng :=
  let max_time : ℝ := 3600
  let integral0 := integrateFlow uniformProfile max_time fuel 0 0
  let integral := if integral0 ≤ 0 then max_time else integral0
  let base_rate := (total : ℝ) / integral
  let st := scheduleLoop total max_time base_rate fuel
    { schedule := [], generated := 0, t := 0, platoon_id := 0, rng := g }
  let (sched2, g2) := fillRemaining (total - st.generated) st.t st.schedule st.rng
  (sortReal sched2, g2)

/-- Translated from `VehicleSpawner.get_spawn_times` (a sorted copy). -/
noncomputable def get_spawn_times (schedule : List ℝ) : List ℝ :=
  sortReal schedule

end VehicleSpawner

/-- Translated from `models/etc_noise_simulator.py::NoiseConfig`. -/
structure NoiseConfig where
  missed_read_rate : ℝ := 0.03
  duplicate_read_rate : ℝ := 0.02
  delayed_upload_rate : ℝ := 0.05
  delayed_upload_range : ℝ × ℝ := (1.0, 5.0)
  clock_drift_rate : ℝ := 0.10
  clock_drift_range : ℝ × ℝ := (-0.5, 0.5)
  enabled : Bool := true

/-- Noise type strings of `NoiseType`. -/
inductive NoiseType where
  | missed_read
  | duplicate_read
  | delayed_upload
  | clock_drift
deriving DecidableEq

/-- Translated from `models/etc_noise_simulator.py::NoiseEvent` (the
description string is omitted). -/
structure NoiseEvent where
  noise_type : NoiseType
  vehicle_id : ℕ
  gate_id : ℤ
  original_timestamp : ℝ
  modified_timestamp : Option ℝ
  is_dropped : Bool
  duplicate_count : ℕ

/-- Translated from `ETCNoiseSimulator` state: config, event trace and the
per-type statistics counters. -/
structure ETCNoiseSimulator where
  config : NoiseConfig
  noise_events : List NoiseEvent
  missed_count : ℕ
  duplicate_count : ℕ
  delayed_count : ℕ
  drift_count : ℕ
  total_processed : ℕ

/-- A fresh noise simulator (`ETCNoiseSimulator()`). -/
def ETCNoiseSimulator.init : ETCNoiseSimulator :=
  ⟨{}, [], 0, 0, 0, 0, 0⟩

/-- Translated from `DuplicateReadInjector.inject` (lines 121-141) for one
transaction: 2 or 3 copies, copy `i` jittered by `uniform(-0.1, 0.1) * i`. -/
noncomputable def duplicateInject (tx : ETCTransaction) (g : Rng) :
    List ETCTransaction × NoiseEvent × Rng :=
  let (n, g1) := g.next
  let dup_count : ℕ := if n % 2 = 0 then 2 else 3
  let loop : ℕ → List ETCTransaction → Rng → List ETCTransaction × Rng :=
    fun count => Nat.rec (motive := fun _ => List ETCTransaction → Rng → List ETCTransaction × Rng)
      (fun acc g0 => (acc, g0))
      (fun _ ih acc g0 =>
        let (u, g1) := g0.uniform (-0.1) 0.1
        let i := acc.length
        ih (acc ++ [{ tx with timestamp := tx.timestamp + u * (i : ℝ) }]) g1)
      count
  let (txs, g2) := loop dup_count [] g1
  (txs,
   { noise_type := NoiseType.duplicate_read
     vehicle_id := tx.vehicle_id
     gate_id := tx.gate_id
     original_timestamp := tx.timestamp
     modified_timestamp := none
     is_dropped := false
     duplicate_count := dup_count }, g2)

/-- Translated from `DelayedUploadInjector.inject` (lines 150-165): the
timestamp itself is unchanged (the delay is recorded on extra keys the
detector never reads). -/
noncomputable def delayedInject (cfgn : NoiseConfig) (tx : ETCTransaction) (g : Rng) :
    List ETCTransaction × NoiseEvent × Rng :=
  let (d, g1) := g.uniform cfgn.delayed_upload_range.1 cfgn.delayed_upload_range.2
  ([tx],
   { noise_type := NoiseType.delayed_upload
     vehicle_id := tx.vehicle_id
     gate_id := tx.gate_id
     original_timestamp := tx.timestamp
     modified_timestamp := some (tx.timestamp + d)
     is_dropped := false
     duplicate_count := 1 }, g1)

/-- Translated from `ClockDriftInjector.inject` (lines 174-189). -/
noncomputable def driftInject (cfgn : NoiseConfig) (tx : ETCTransaction) (g : Rng) :
    List ETCTransaction × NoiseEvent × Rng :=
  let (d, g1) := g.uniform cfgn.clock_drift_range.1 cfgn.clock_drift_range.2
  ([{ tx with timestamp := tx.timestamp + d }],
   { noise_type := NoiseType.clock_drift
     vehicle_id := tx.vehicle_id
     gate_id := tx.gate_id
     original_timestamp := tx.timestamp
     modified_timestamp := some (tx.timestamp + d)
     is_dropped := false
     duplicate_count := 1 }, g1)

/-- Apply one injector's `inject` to every current transaction
(the inner loop of `ETCNoiseSimulator.process`, lines 260-273); only the
missed-read injector drops, and it is handled before this loop. -/
noncomputable def injectAll
    (inject : ETCTransaction → Rng → List ETCTransaction × NoiseEvent × Rng)
    (txs : List ETCTransaction) (g : Rng) :
    List ETCTransaction × List NoiseEvent × Rng :=
  txs.foldl
    (fun acc tx =>
      let (out, ev, g2) := inject tx acc.2.2
      (acc.1 ++ out, acc.2.1 ++ [ev], g2))
    ([], [], g)

/-- Translated from `models/etc_noise_simulator.py::ETCNoiseSimulator.process`
(lines 240-275): one `should_inject` coin per registered injector in
priority order (missed read, duplicate read, delayed upload, clock
drift); a missed read drops the transaction and returns immediately. -/
noncomputable def ETCNoiseSimulator.process (ns : ETCNoiseSimulator)
    (tx : ETCTransaction) (g : Rng) :
    List ETCTransaction × List NoiseEvent × ETCNoiseSimulator × Rng :=
  if ¬ ns.config.enabled then ([tx], [], ns, g)
  else
    let ns1 := { ns with total_processed := ns.total_processed + 1 }
    let (u1, g1) := g.random
    if u1 < ns1.config.missed_read_rate then
      let ev : NoiseEvent :=
        { noise_type := NoiseType.missed_read
          vehicle_id := tx.vehicle_id
          gate_id := tx.gate_id
          original_timestamp := tx.timestamp
          modified_timestamp := none
          is_dropped := true
          duplicate_count := 1 }
      ([], [ev],
       { ns1 with
         noise_events := ns1.noise_events ++ [ev]
         missed_count := ns1.missed_count + 1 }, g1)
    else
      let step1 : List ETCTransaction × List NoiseEvent × ETCNoiseSimulator × Rng :=
        ([tx], [], ns1, g1)
      let step2 :=
        let (u, g2) := step1.2.2.2.random
        if u < ns1.config.duplicate_read_rate then
          let (txs, evs, g3) := injectAll duplicateInject step1.1 g2
          (txs, step1.2.1 ++ evs,
           { step1.2.2.1 with
             noise_events := step1.2.2.1.noise_events ++ evs
             duplicate_count := step1.2.2.1.duplicate_count + evs.length }, g3)
        else (step1.1, step1.2.1, step1.2.2.1, g2)
      let step3 :=
        let (u, g2) := step2.2.2.2.random
        if u < ns1.config.delayed_upload_rate then
          let (txs, evs, g3) := injectAll (delayedInject ns1.config) step2.1 g2
          (txs, step2.2.1 ++ evs,
           { step2.2.2.1 with
             noise_events := step2.2.2.1.noise_events ++ evs
             delayed_count := step2.2.2.1.delayed_count + evs.length }, g3)
        else (step2.1, step2.2.1, step2.2.2.1, g2)
      let step4 :=
        let (u, g2) := step3.2.2.2.random
        if u < ns1.config.clock_drift_rate then
          let (txs, evs, g3) := injectAll (driftInject ns1.config) step3.1 g2
          (txs, step3.2.1 ++ evs,
           { step3.2.2.1 with
             noise_events := step3.2.2.1.noise_events ++ evs
             drift_count := step3.2.2.1.drift_count + evs.length }, g3)
        else (step3.1, step3.2.1, step3.2.2.1, g2)
      if step4.1 = [] then ([tx], step4.2.1, step4.2.2.1, step4.2.2.2)
      else step4

/-- Weather strings of `models/environment.py::WeatherType`; the engine
never advances the environment model during a run, so the context always
carries the default CLEAR value. -/
inductive Weather where
  | clear
  | rain
  | fog
  | snow
deriving DecidableEq

/-- Translated from `models/alert_context.py::AlertContext`, restricted to
the fields the default rule conditions read.  `queue_lengths` is always
passed as the empty dictionary by the engine; `recent_alert_events` and
`alert_history` are never read by any condition and are omitted. -/
structure AlertContext where
  current_time : ℝ
  gate_stats : List (ℤ × GateStatistics)
  recent_transactions : List ETCTransaction
  vehicle_speeds : List (ℕ × ℝ)
  vehicle_positions : List (ℕ × ℝ)
  vehicle_anomaly_states : List (ℕ × AnomalyState)
  vehicle_lanes : List (ℕ × ℤ)
  missed_read_rate_actual : ℝ
  weather : Weather
  queue_lengths : List (ℤ × ℝ)
  segment_avg_speeds : List (ℤ × ℝ)

/-- The condition atoms of `models/alert_conditions.py` used by the
default rule set, with their parameters.  All default rules are scoped to
every gate (`gate_id = '*'`). -/
inductive RuleCondition where
  | speedBelowThreshold (threshold_kmh : ℝ) (min_samples : ℕ)
  | travelTimeOutlier (z_score_threshold ratio_threshold : ℝ) (min_samples : ℕ)
  | flowImbalance (ratio_threshold : ℝ) (time_window_s : ℝ) (min_upstream_count : ℕ)
  | consecutiveAlerts (count_threshold : ℕ)
  | queueLengthExceeds (length_threshold_m : ℝ)
  | speedStdDevHigh (std_threshold_kmh : ℝ) (min_samples : ℕ)
  | weatherCondition (types : List Weather)
  | highMissedReadRate (rate_threshold : ℝ)

/-- Stable insertion sort of gate statistics by `position_km` (the
`sorted(..., key=position_km)` of `FlowImbalance.evaluate`). -/
noncomputable def insertGateByPos (x : ℤ × GateStatistics) :
    List (ℤ × GateStatistics) → List (ℤ × GateStatistics)
  | [] => [x]
  | y :: ys =>
    if x.2.position_km < y.2.position_km then x :: y :: ys
    else y :: insertGateByPos x ys

/-- Sorted view of the gate dictionary by position. -/
noncomputable def sortGatesByPos (l : List (ℤ × GateStatistics)) :
    List (ℤ × GateStatistics) :=
  l.foldr insertGateByPos []

/-- Translated from the `evaluate` methods of `models/alert_conditions.py`
for the conditions of the default rule set. -/
noncomputable def RuleCondition.evaluate (c : RuleCondition) (ctx : AlertContext) : Prop :=
  match c with
  | RuleCondition.speedBelowThreshold th ms =>
    ∃ e ∈ ctx.gate_stats, e.2.recent_speeds.length ≥ ms ∧ e.2.avg_speed < th
  | RuleCondition.travelTimeOutlier zth rth ms =>
    ∃ e ∈ ctx.gate_stats,
      e.2.recent_travel_times.length ≥ ms ∧
      ¬ (e.2.std_travel_time < 0.1 ∨ e.2.avg_travel_time ≤ 0) ∧
      ((e.2.recent_travel_times.getLastD 0 - e.2.avg_travel_time) / e.2.std_travel_time > zth ∨
        e.2.recent_travel_times.getLastD 0 / e.2.avg_travel_time > rth)
  | RuleCondition.flowImbalance rth window minUp =>
    let sg := sortGatesByPos ctx.gate_stats
    ∃ p ∈ sg.zip sg.tail,
      (ctx.recent_transactions.filter fun tx =>
        decide (tx.gate_id = p.1.1 ∧ ctx.current_time - tx.timestamp ≤ window)).length ≥ minUp ∧
      ((ctx.recent_transactions.filter fun tx =>
          decide (tx.gate_id = p.2.1 ∧ ctx.current_time - tx.timestamp ≤ window)).length : ℝ) /
        ((ctx.recent_transactions.filter fun tx =>
          decide (tx.gate_id = p.1.1 ∧ ctx.current_time - tx.timestamp ≤ window)).length : ℝ) < rth
  | RuleCondition.consecutiveAlerts cth =>
    ∃ e ∈ ctx.gate_stats, e.2.consecutive_outliers ≥ cth
  | RuleCondition.queueLengthExceeds lth =>
    ∃ e ∈ ctx.queue_lengths, e.2 ≥ lth
  | RuleCondition.speedStdDevHigh sth ms =>
    ∃ e ∈ ctx.gate_stats,
      e.2.recent_speeds.length ≥ ms ∧
      (let mean := e.2.recent_speeds.sum / (e.2.recent_speeds.length : ℝ)
       let variance := ((e.2.recent_speeds.map fun s => (s - mean) ^ 2).sum) /
         (e.2.recent_speeds.length : ℝ)
       (if variance > 0 then Real.sqrt variance else 0) > sth)
  | RuleCondition.weatherCondition types => ctx.weather ∈ types
  | RuleCondition.highMissedReadRate rth => ctx.missed_read_rate_actual > rth

/-- Translated from `models/alert_rules.py::AlertRule` (rule names are
numbered; the action list only logs and collects notifications, which are
not part of the engine's recorded outputs, and is omitted). -/
structure AlertRule where
  name : ℕ
  conditions : List RuleCondition
  logicAll : Bool
  severity : Severity
  cooldown_s : ℝ
  last_trigger_time : ℝ := 0
  enabled : Bool := true

/-- Translated from `models/alert_context.py::AlertEvent`, restricted to
the fields the engine copies into `rule_engine_events`.  All default
rules are unscoped, so the resolved gate is always empty and omitted. -/
structure AlertEvent where
  rule_name : ℕ
  severity : Severity
  timestamp : ℝ
  confidence : ℝ

/-- Translated from `AlertRule.evaluate` (alert_rules.py lines 172-231):
cooldown gate, AND/OR condition composition, event construction and the
last-trigger update. -/
noncomputable def AlertRule.evaluate (r : AlertRule) (ctx : AlertContext) :
    Option AlertEvent × AlertRule :=
  if ¬ r.enabled ∨ r.conditions = [] then (none, r)
  else if ctx.current_time - r.last_trigger_time < r.cooldown_s then (none, r)
  else
    let triggered : Prop :=
      if r.logicAll then ∀ c ∈ r.conditions, c.evaluate ctx
      else ∃ c ∈ r.conditions, c.evaluate ctx
    if triggered then
      (some { rule_name := r.name
              severity := r.severity
              timestamp := ctx.current_time
              confidence := 0.8 },
       { r with last_trigger_time := ctx.current_time })
    else (none, r)

/-- Translated from `models/alert_rules.py::create_default_rules`
(lines 407-514), rules numbered 1-7 in construction order. -/
noncomputable def create_default_rules : List AlertRule :=
  [ { name := 1
      conditions := [RuleCondition.speedBelowThreshold 40.0 3,
        RuleCondition.travelTimeOutlier 2.0 1.5 5]
      logicAll := true
      severity := Severity.medium
      cooldown_s := 60.0 },
    { name := 2
      conditions := [RuleCondition.flowImbalance 0.3 60.0 5,
        RuleCondition.consecutiveAlerts 5]
      logicAll := false
      severity := Severity.high
      cooldown_s := 120.0 },
    { name := 3
      conditions := [RuleCondition.speedBelowThreshold 60.0 5]
      logicAll := true
      severity := Severity.low
      cooldown_s := 30.0 },
    { name := 4
      conditions := [RuleCondition.speedStdDevHigh 20.0 5]
      logicAll := true
      severity := Severity.medium
      cooldown_s := 45.0 },
    { name := 5
      conditions := [RuleCondition.queueLengthExceeds 800.0]
      logicAll := true
      severity := Severity.high
      cooldown_s := 90.0 },
    { name := 6
      conditions := [RuleCondition.weatherCondition [Weather.rain, Weather.fog, Weather.snow],
        RuleCondition.speedBelowThreshold 50.0 3]
      logicAll := true
      severity := Severity.high
      cooldown_s := 60.0 },
    { name := 7
      conditions := [RuleCondition.highMissedReadRate 0.15]
      logicAll := true
      severity := Severity.critical
      cooldown_s := 300.0 } ]

/-- Translated from `AlertRuleEngine.evaluate_all` (lines 325-344). -/
noncomputable def evaluateAllRules (rules : List AlertRule) (ctx : AlertContext) :
    List AlertEvent × List AlertRule :=
  rules.foldl
    (fun acc r =>
      let (ev, r2) := r.evaluate ctx
      (acc.1 ++ ev.toList, acc.2 ++ [r2]))
    ([], [])

/-- One trajectory record of `engine.trajectory_data` (run lines 399-411). -/
structure TrajPoint where
  id : ℕ
  pos : ℝ
  time : ℝ
  lane : ℤ
  speed : ℝ
  anomaly_state : AnomalyState
  anomaly_type : ℕ
  vehicle_type : VehicleType
  driver_style : DriverStyle
  is_affected : Bool

/-- One record of `engine.segment_speed_history` (run lines 423-434). -/
structure SegmentSpeedRecord where
  time : ℝ
  segment : ℤ
  avg_speed : ℝ
  density : ℝ
  flow : ℝ

/-- One record of `engine.queue_events` (`QueueFormationModel` result). -/
structure QueueEvent where
  time : ℝ
  queue_start : ℝ
  queue_end : ℝ
  queue_length : ℝ
  queue_vehicle_ids : List ℕ

/-- One record of `engine.phantom_jam_events`
(`PhantomJamDetector.detect_phantom_jam` result). -/
structure PhantomJamEvent where
  time : ℝ
  vehicle_id : ℕ
  position_km : ℝ
  speed_kmh : ℝ
  lane : ℤ

/-- One record of `engine.safety_data` (run lines 450-462). -/
structure SafetyRecord where
  time : ℝ
  vehicle_id : ℕ
  vehicle_type : VehicleType
  driver_style : DriverStyle
  speed : ℝ
  pos : ℝ
  min_ttc : ℝ
  max_decel : ℝ
  brake_count : ℕ
  emergency_brake_count : ℕ

/-- Stable insertion of a vehicle into a position-sorted list. -/
noncomputable def insertVehicleByPos (v : Vehicle) : List Vehicle → List Vehicle
  | [] => [v]
  | w :: ws => if v.pos ≤ w.pos then v :: w :: ws else w :: insertVehicleByPos v ws

/-- Python's stable `sort(key=lambda x: x.pos)` on a vehicle list
(insertion sort). -/
noncomputable def sortVehiclesByPos (xs : List Vehicle) : List Vehicle :=
  xs.foldr insertVehicleByPos []

/-- Translated from `models/queue.py::QueueFormationModel.detect_queue_state`
with `SPEED_THRESHOLD = 15`, `MIN_VEHICLES = 3` (the engine appends an
event only when `in_queue`, so the not-in-queue record is `none`). -/
noncomputable def detect_queue_state (vehicles : List Vehicle) : Option QueueEvent :=
  if vehicles.length < 3 then none
  else
    let sorted := sortVehiclesByPos vehicles
    let queue_vehicles := sorted.filter fun v => decide (v.speed * 3.6 < 15)
    if queue_vehicles.length < 3 then none
    else
      match queue_vehicles with
      | [] => none
      | q0 :: _ =>
        some { time := 0
               queue_start := q0.pos
               queue_end := (queue_vehicles.getLast? ).getD q0 |>.pos
               queue_length := ((queue_vehicles.getLast?).getD q0).pos - q0.pos
               queue_vehicle_ids := queue_vehicles.map Vehicle.id }

/-- Translated from `models/phantom_jam.py::PhantomJamDetector.detect_phantom_jam`
with `SPEED_THRESHOLD = 30`, `DETECT_DIST = 200`: a slow vehicle with no
slow vehicle shortly ahead in its lane is a phantom-jam witness.  The
nearest same-lane vehicle ahead is the first position-greater entry of
the sorted per-lane list scanned by the source. -/
noncomputable def detect_phantom_jam (t : ℝ) (vehicles : List Vehicle) :
    List PhantomJamEvent :=
  vehicles.filterMap fun v =>
    if v.speed * 3.6 > 30 then none
    else
      let ahead := v.find_leader_in_lane v.lane vehicles
      let has_obstacle : Prop :=
        match ahead with
        | some o => o.pos - v.pos < 200 ∧ o.speed * 3.6 < 30
        | none => False
      if has_obstacle then none
      else some { time := t
                  vehicle_id := v.id
                  position_km := v.pos / 1000
                  speed_kmh := v.speed * 3.6
                  lane := v.lane }

/-- Errors a Python statement can raise in the embedded fragment. -/
inductive PyError where
  | attributeError
deriving DecidableEq

/-- State of `simulation/engine.py::SimulationEngine`.  `spawn_idx` and
`spawn_schedule` are the attributes `step()` reads (engine.py lines
179-200); `__init__` never assigns them, which is modelled by `Option`
fields initialised to `none` (`run()` uses its own locals instead).
`spawner_schedule` is the spawner object's generated schedule. -/
structure EngineState where
  cfg : SimulationConfig
  vehicles : List Vehicle
  finished_vehicles : List Vehicle
  anomaly_logs : List AnomalyLog
  trajectory_data : List TrajPoint
  segment_speed_history : List SegmentSpeedRecord
  queue_events : List QueueEvent
  phantom_jam_events : List PhantomJamEvent
  safety_data : List SafetyRecord
  etc_alerts : List AnomalyAlert
  etc_noise_events : List NoiseEvent
  etc_detector : ETCAnomalyDetector
  noise_sim : ETCNoiseSimulator
  rules : List AlertRule
  rule_engine_events : List AlertEvent
  current_time : ℝ
  vehicle_id_counter : ℕ
  etc_gates : List ℤ
  spawner_schedule : List ℝ
  rng : Rng
  spawn_idx : Option ℕ
  spawn_schedule : Option (List ℝ)

namespace SimulationEngine

/-- Translated from `SimulationEngine._init_etc_gates` (lines 91-95):
one gate every 2 km, `range(2, int(road_length), 2)`. -/
noncomputable def init_etc_gates (road_length_km : ℝ) : List ℤ :=
  ((List.range (pyInt road_length_km).toNat).filter
    fun k => decide (2 ≤ k ∧ k % 2 = 0)).map fun k => (k : ℤ)

/-- Translated from `SimulationEngine.__init__` (lines 42-89): build the
spawner (whose constructor generates the spawn schedule from the shared
generator), the detector, the noise simulator, the default rule set and
the gates.  `spawn_idx` / `spawn_schedule` are never assigned. -/
noncomputable def init (cfg : SimulationConfig) (g : Rng) (fuel : ℕ) : EngineState :=
  let sg := VehicleSpawner.generate_schedule cfg.total_vehicles g fuel
  { cfg := cfg
    vehicles := []
    finished_vehicles := []
    anomaly_logs := []
    trajectory_data := []
    segment_speed_history := []
    queue_events := []
    phantom_jam_events := []
    safety_data := []
    etc_alerts := []
    etc_noise_events := []
    etc_detector := ETCAnomalyDetector.init
    noise_sim := ETCNoiseSimulator.init
    rules := create_default_rules
    rule_engine_events := []
    current_time := 0
    vehicle_id_counter := 0
    etc_gates := init_etc_gates cfg.road_length_km
    spawner_schedule := sg.1
    rng := sg.2
    spawn_idx := none
    spawn_schedule := none }

/-- State threaded through the spawn-admission loop. -/
structure SpawnPhase where
  vehicles : List Vehicle
  id_counter : ℕ
  rng : Rng
  idx : ℕ
  sched : List ℝ

/-- Translated from the spawn-admission loop of `run` / `step`
(engine.py lines 179-200 and 335-356): while the next scheduled time is
due, shuffle the lanes, place the vehicle in the first lane whose first
50 m are clear, else defer the spawn by 1 s.  The loop advances a
real-valued schedule, hence the explicit fuel. -/
noncomputable def spawnAdmission (cfg : SimulationConfig) (tnow : ℝ) :
    ℕ → SpawnPhase → SpawnPhase
  | 0, st => st
  | fuel + 1, st =>
    if st.idx < st.sched.length ∧ st.sched.getD st.idx 0 ≤ tnow then
      let lg := st.rng.shuffle (List.range cfg.num_lanes.toNat)
      let placed := lg.1.find? fun lane =>
        decide (∀ v ∈ st.vehicles, ¬ (v.lane = (lane : ℤ) ∧ v.pos < 50))
      match placed with
      | some lane =>
        let nv := Vehicle.init st.id_counter tnow (lane : ℤ) cfg lg.2
        spawnAdmission cfg tnow fuel
          { vehicles := st.vehicles ++ [nv.1]
            id_counter := st.id_counter + 1
            rng := nv.2
            idx := st.idx + 1
            sched := st.sched }
      | none =>
        spawnAdmission cfg tnow fuel
          { st with
            rng := lg.2
            sched := st.sched.set st.idx (st.sched.getD st.idx 0 + 1.0) }
    else st

/-- Grid cell of a position (`SpatialIndex._get_cell_idx`, cell size
100 m, clamped to the road). -/
noncomputable def cellIdx (cfg : SimulationConfig) (pos : ℝ) : ℤ :=
  let num_cells := pyInt (cfg.road_length_km * 1000 / 100) + 1
  max 0 (min (pyInt (pos / 100)) (num_cells - 1))

/-- The neighbour slice `SpatialIndex.get_nearby_vehicles(v, range_cells=3)`
used by the update loop: every other vehicle within three grid cells, in
any lane. -/
noncomputable def neighborsOf (cfg : SimulationConfig) (v : Vehicle)
    (others : List Vehicle) : List Vehicle :=
  others.filter fun o =>
    decide (|cellIdx cfg o.pos - cellIdx cfg v.pos| ≤ 3 ∧ o.id ≠ v.id)

/-- Translated from the per-vehicle update loop of `run` / `step`
(engine.py lines 371-384): in position-sorted order, record the segment
time, try the anomaly state machine, then update against the neighbour
slice.  Mutation in place is modelled by the processed prefix joining
the pending suffix in each neighbour query. -/
noncomputable def processVehicles (cfg : SimulationConfig) (dt t : ℝ)
    (blocked : List (ℤ × ℝ)) :
    List Vehicle → Rng → List AnomalyLog → List Vehicle →
    List Vehicle × List AnomalyLog × Rng
  | done, g, logs, [] => (done, logs, g)
  | done, g, logs, v :: rest =>
    let seg := pyInt (v.pos / (cfg.segment_length_km * 1000))
    let v1 := v.record_time cfg t seg
    let (log, v2, g1) := v1.trigger_anomaly cfg t seg g
    let nearby := neighborsOf cfg v2 (done ++ rest)
    let v3 := v2.update cfg dt nearby blocked t
    processVehicles cfg dt t blocked (done ++ [v3]) g1 (logs ++ log.toList) rest

/-- State threaded through the gantry-crossing loop. -/
structure GantryState where
  detector : ETCAnomalyDetector
  noise_sim : ETCNoiseSimulator
  etc_alerts : List AnomalyAlert
  etc_noise_events : List NoiseEvent
  rng : Rng

/-- Translated from `SimulationEngine._process_etc_transaction`
(lines 97-164): register the gate, build the raw transaction, run the
noise stage, feed each surviving transaction to the detector, collect
alerts, and stamp the vehicle's first ETC detection of an active
anomaly. -/
noncomputable def process_etc_transaction (t : ℝ) (v : Vehicle) (gate : ℤ)
    (st : GantryState) : Vehicle × GantryState :=
  let det := st.detector.register_gate gate (gate : ℝ)
  let raw : ETCTransaction :=
    { vehicle_id := v.id
      gate_id := gate
      gate_position_km := (gate : ℝ)
      timestamp := t
      lane := v.lane
      speed := v.speed
      status_anomaly := v.anomaly_state = AnomalyState.active }
  let pr := st.noise_sim.process raw st.rng
  let da := pr.1.foldl
    (fun acc tx =>
      let (al, d2) := acc.1.record_transaction tx
      (d2, acc.2 ++ al.toList))
    (det, [])
  let v2 :=
    if v.anomaly_state = AnomalyState.active ∧ ¬ v.detected_by_etc then
      { v with
        detected_by_etc := true
        etc_detection_time :=
          match v.anomaly_trigger_time with
          | some tt => some (t - tt)
          | none => v.etc_detection_time }
    else v
  (v2,
   { detector := da.1
     noise_sim := pr.2.2.1
     etc_alerts := st.etc_alerts ++ da.2
     etc_noise_events := st.etc_noise_events ++ pr.2.1
     rng := pr.2.2.2 })

/-- One gate test of the gantry-crossing loop of `run` / `step`
(engine.py lines 388-395): a vehicle within 50 m of a gate it has not
visited yet produces one transaction there (the visited flag is the
dynamic `_last_gate_Gxx` attribute). -/
noncomputable def gantry_step (t : ℝ) (acc : Vehicle × GantryState) (gate : ℤ) :
    Vehicle × GantryState :=
  let pos_km := acc.1.pos / 1000
  if (((gate : ℝ)) - 0.05 ≤ pos_km ∧ pos_km < ((gate : ℝ)) + 0.05) ∧
      gate ∉ acc.1.visited_gates then
    let vmarked := { acc.1 with visited_gates := acc.1.visited_gates ++ [gate] }
    process_etc_transaction t vmarked gate acc.2
  else acc

/-- Translated from the gantry-crossing loop of `run` / `step`
(engine.py lines 387-396): each active vehicle is folded over every
gate with `gantry_step`. -/
noncomputable def processGantries (t : ℝ) (gates : List ℤ) :
    List Vehicle → GantryState → List Vehicle × GantryState
  | [], st => ([], st)
  | v :: rest, st =>
    let p := gates.foldl (gantry_step t) (v, st)
    let q := processGantries t gates rest p.2
    (p.1 :: q.1, q.2)

/-- The per-segment speed dictionary of `run` / `step` (engine.py lines
414-421): insertion-ordered grouping of active-vehicle speeds by
segment, restricted to valid segments. -/
noncomputable def groupSegments (cfg : SimulationConfig) (vs : List Vehicle) :
    List (ℤ × List ℝ) :=
  vs.foldl
    (fun acc v =>
      let seg := pyInt (v.pos / (cfg.segment_length_km * 1000))
      if 0 ≤ seg ∧ seg < cfg.num_segments then
        match alistLookup acc seg with
        | some speeds => alistSet acc seg (speeds ++ [v.speed])
        | none => acc ++ [(seg, [v.speed])]
      else acc)
    []

/-- Result of one tick: the engine state plus the run-local spawn cursor
and (possibly deferred) schedule. -/
structure TickResult where
  engine : EngineState
  idx : ℕ
  sched : List ℝ

/-- The spawn-admission phase of one tick of `run` / `step` (engine.py
lines 335-356), started from the engine's vehicle list, id counter and
generator. -/
noncomputable def tickSpawn (e : EngineState) (idx : ℕ) (sched : List ℝ)
    (fuel : ℕ) : SpawnPhase :=
  spawnAdmission e.cfg e.current_time fuel
    { vehicles := e.vehicles
      id_counter := e.vehicle_id_counter
      rng := e.rng
      idx := idx
      sched := sched }

/-- The position-sorted active set of one tick (engine.py lines 359-366):
the not-finished vehicles after spawn admission, sorted by position. -/
noncomputable def tickActive (e : EngineState) (idx : ℕ) (sched : List ℝ)
    (fuel : ℕ) : List Vehicle :=
  sortVehiclesByPos
    ((tickSpawn e idx sched fuel).vehicles.filter fun v => ¬ v.finished)

/-- The blocked-lane list of one tick (engine.py lines 368-369): the lane
and position of every active type-1 anomaly vehicle. -/
noncomputable def tickBlocked (e : EngineState) (idx : ℕ) (sched : List ℝ)
    (fuel : ℕ) : List (ℤ × ℝ) :=
  ((tickActive e idx sched fuel).filter fun v =>
      decide (v.anomaly_type = 1 ∧ v.anomaly_state = AnomalyState.active)).map
    fun v => (v.lane, v.pos)

/-- The per-vehicle update loop of one tick (engine.py lines 371-384),
run over the sorted active set. -/
noncomputable def tickUpdate (e : EngineState) (idx : ℕ) (sched : List ℝ)
    (fuel : ℕ) : List Vehicle × List AnomalyLog × Rng :=
  processVehicles e.cfg e.cfg.simulation_dt e.current_time
    (tickBlocked e idx sched fuel) [] (tickSpawn e idx sched fuel).rng []
    (tickActive e idx sched fuel)

/-- The gantry-crossing loop of one tick (engine.py lines 387-396), run
over the updated vehicles with the engine's detector and noise stage. -/
noncomputable def tickGantries (e : EngineState) (idx : ℕ) (sched : List ℝ)
    (fuel : ℕ) : List Vehicle × GantryState :=
  processGantries e.current_time e.etc_gates (tickUpdate e idx sched fuel).1
    { detector := e.etc_detector
      noise_sim := e.noise_sim
      etc_alerts := e.etc_alerts
      etc_noise_events := e.etc_noise_events
      rng := (tickUpdate e idx sched fuel).2.2 }

/-- The vehicle-state core of one tick of `run` / `step` (engine.py
lines 334-396): the spawn cursor, the update-loop result and the
gantry-loop result; the record-building rest of the tick only reads
these. -/
noncomputable def tickCore (e : EngineState) (idx : ℕ) (sched : List ℝ)
    (fuel : ℕ) :
    SpawnPhase × (List Vehicle × List AnomalyLog × Rng) ×
      (List Vehicle × GantryState) :=
  (tickSpawn e idx sched fuel, tickUpdate e idx sched fuel,
    tickGantries e idx sched fuel)

/-- Translated from the body of the main loop of `SimulationEngine.run`
(engine.py lines 334-501), one tick: run the vehicle-state core (spawns,
updates, gantries), then append the trajectory / segment-speed / queue /
phantom-jam / safety records, evaluate the alert rules, retire finished
vehicles and advance the clock.  `step` (lines 170-323) duplicates this
body verbatim against the `spawn_idx` / `spawn_schedule` attributes.
The source keeps `self.vehicles` in insertion order and re-sorts each
tick; this embedding keeps the position-sorted order between ticks,
which only reorders exact position ties. -/
noncomputable def tickBody (e : EngineState) (idx : ℕ) (sched : List ℝ)
    (fuel : ℕ) : TickResult :=
  let dt := e.cfg.simulation_dt
  let c := tickCore e idx sched fuel
  let sp := c.1
  let logs2 := c.2.1.2.1
  let updated2 := c.2.2.1
  let gst := c.2.2.2
  let traj := updated2.map fun v =>
    ({ id := v.id
       pos := v.pos
       time := e.current_time
       lane := v.lane
       speed := v.speed
       anomaly_state := v.anomaly_state
       anomaly_type := v.anomaly_type
       vehicle_type := v.vehicle_type
       driver_style := v.driver_style
       is_affected := v.is_affected } : TrajPoint)
  let segGroups := groupSegments e.cfg updated2
  let segRecords := segGroups.map fun p =>
    let avg_speed := p.2.sum / (p.2.length : ℝ)
    let density := (p.2.length : ℝ) / e.cfg.segment_length_km
    ({ time := e.current_time
       segment := p.1
       avg_speed := avg_speed
       density := density
       flow := avg_speed * density } : SegmentSpeedRecord)
  let queueEv := (detect_queue_state updated2).map
    fun q => { q with time := e.current_time }
  let jams := detect_phantom_jam e.current_time updated2
  let safety := updated2.map fun v =>
    ({ time := e.current_time
       vehicle_id := v.id
       vehicle_type := v.vehicle_type
       driver_style := v.driver_style
       speed := v.speed * 3.6
       pos := v.pos
       min_ttc := v.min_ttc
       max_decel := v.max_decel
       brake_count := v.brake_count
       emergency_brake_count := v.emergency_brake_count } : SafetyRecord)
  let ctx : AlertContext :=
    { current_time := e.current_time
      gate_stats := gst.detector.gate_stats
      recent_transactions :=
        gst.detector.transactions.drop (gst.detector.transactions.length - 100)
      vehicle_speeds := updated2.map fun v => (v.id, v.speed)
      vehicle_positions := updated2.map fun v => (v.id, v.pos)
      vehicle_anomaly_states := updated2.map fun v => (v.id, v.anomaly_state)
      vehicle_lanes := updated2.map fun v => (v.id, v.lane)
      missed_read_rate_actual :=
        (gst.noise_sim.missed_count : ℝ) / (max 1 gst.noise_sim.total_processed : ℕ)
      weather := Weather.clear
      queue_lengths := []
      segment_avg_speeds := segGroups.map fun p => (p.1, p.2.sum / (p.2.length : ℝ)) }
  let rr := evaluateAllRules e.rules ctx
  let completed := updated2.filter fun v => v.finished
  let remaining := updated2.filter fun v => ¬ v.finished
  { engine :=
    { e with
      vehicles := remaining
      finished_vehicles := e.finished_vehicles ++ completed
      anomaly_logs := e.anomaly_logs ++ logs2
      trajectory_data := e.trajectory_data ++ traj
      segment_speed_history := e.segment_speed_history ++ segRecords
      queue_events := e.queue_events ++ queueEv.toList
      phantom_jam_events := e.phantom_jam_events ++ jams
      safety_data := e.safety_data ++ safety
      etc_alerts := gst.etc_alerts
      etc_noise_events := gst.etc_noise_events
      etc_detector := gst.detector
      noise_sim := gst.noise_sim
      rules := rr.2
      rule_engine_events := e.rule_engine_events ++ rr.1
      current_time := e.current_time + dt
      vehicle_id_counter := sp.id_counter
      rng := gst.rng }
    idx := sp.idx
    sched := sp.sched }

/-- Translated from `SimulationEngine.run` (lines 325-508): loop ticks
over the local spawn cursor until no vehicle remains and the schedule is
exhausted, or the clock passes `max_simulation_time`; the real-valued
clock is bounded by an explicit fuel. -/
noncomputable def runAux : ℕ → EngineState → ℕ → List ℝ → EngineState
  | 0, e, _, _ => e
  | fuel + 1, e, idx, sched =>
    if e.vehicles.length > 0 ∨ idx < sched.length then
      let r := tickBody e idx sched (fuel + 1)
      if r.engine.current_time > r.engine.cfg.max_simulation_time then r.engine
      else runAux fuel r.engine r.idx r.sched
    else e

/-- The whole simulation as a function of the configuration and the seed:
construct the engine (which generates the spawn schedule) and run the
main loop on `get_spawn_times()`. -/
noncomputable def run (cfg : SimulationConfig) (seed : ℕ) (fuel : ℕ) : EngineState :=
  let e := init cfg ⟨seed, 0⟩ fuel
  runAux fuel e 0 (VehicleSpawner.get_spawn_times e.spawner_schedule)

/-- Translated from `SimulationEngine.step` (lines 170-323): inside the
max-time guard the method first reads `self.spawn_idx` and
`self.spawn_schedule`; on a freshly constructed engine neither attribute
exists, which raises `AttributeError` before any tick work happens. -/
noncomputable def step (e : EngineState) (fuel : ℕ) : Except PyError EngineState :=
  if e.current_time ≥ e.cfg.max_simulation_time then Except.ok e
  else
    match e.spawn_idx, e.spawn_schedule with
    | some idx, some sched =>
      let r := tickBody e idx sched fuel
      Except.ok { r.engine with spawn_idx := some r.idx, spawn_schedule := some r.sched }
    | _, _ => Except.error PyError.attributeError

end SimulationEngine

/-- A concrete engine state at a tick boundary: the freshly constructed
engine with one stopped car on the road. -/
noncomputable def testEngine : EngineState :=
  { SimulationEngine.init defaultConfig ⟨42, 0⟩ 0 with vehicles := [testCar] }

/-! ## Helper lemmas -/

lemma update_safety_metrics_v0 (v : Vehicle) (l : Option Vehicle) (d a : ℝ) :
    (v.update_safety_metrics l d a).v0 = v.v0 := by
  rcases l with - | lv <;>
    (simp only [Vehicle.update_safety_metrics]; split_ifs <;> rfl)

lemma update_safety_metrics_speed (v : Vehicle) (l : Option Vehicle) (d a : ℝ) :
    (v.update_safety_metrics l d a).speed = v.speed := by
  rcases l with - | lv <;>
    (simp only [Vehicle.update_safety_metrics]; split_ifs <;> rfl)

lemma start_lane_change_v0 (v : Vehicle) (tl : ℤ) (ct : ℝ) :
    (v.start_lane_change tl ct).v0 = v.v0 := by
  simp only [Vehicle.start_lane_change]; split_ifs <;> rfl

lemma update_lane_change_v0 (v : Vehicle) (cfg : SimulationConfig) (dt : ℝ) :
    (v.update_lane_change cfg dt).v0 = v.v0 := by
  simp only [Vehicle.update_lane_change]; split_ifs <;> rfl

lemma update_anomaly_timer_v0 (v : Vehicle) (dt : ℝ) :
    (v.update_anomaly_timer dt).v0 = v.v0 := by
  simp only [Vehicle.update_anomaly_timer]; split_ifs <;> rfl

lemma update_response_time_v0 (v : Vehicle) (l : Option Vehicle) (d t : ℝ) :
    (v.update_response_time l d t).v0 = v.v0 := by
  rcases l with - | lv
  · rfl
  · simp only [Vehicle.update_response_time]
    split_ifs
    · rcases lv.anomaly_trigger_time with - | tt <;>
        rcases hfd : v.first_detection_time with - | ft <;> simp [hfd]
    · rfl

lemma update_lane_intent_v0 (v : Vehicle) (cfg : SimulationConfig)
    (nearby : List Vehicle) (blocked : List (ℤ × ℝ)) (l : Option Vehicle) (d t : ℝ) :
    (v.update_lane_intent cfg nearby blocked l d t).v0 = v.v0 := by
  simp only [Vehicle.update_lane_intent]
  split_ifs
  · rfl
  · rcases (v.mobil_decision cfg nearby blocked).1 with - | tl
    · rfl
    · exact start_lane_change_v0 v tl t
  · rfl

lemma integrate_speed_v0 (v : Vehicle) (a dt : ℝ) :
    (v.integrate_speed a dt).v0 = v.v0 := rfl

lemma update_position_v0 (v : Vehicle) (dt : ℝ) :
    (v.update_position dt).v0 = v.v0 := by
  simp only [Vehicle.update_position]; split_ifs <;> rfl

lemma update_position_speed (v : Vehicle) (dt : ℝ) :
    (v.update_position dt).speed = v.speed := by
  simp only [Vehicle.update_position]; split_ifs <;> rfl

lemma update_v0 (cfg : SimulationConfig) (dt t : ℝ) (nb : List Vehicle)
    (bl : List (ℤ × ℝ)) (v : Vehicle) :
    (v.update cfg dt nb bl t).v0 = v.v0 := by
  simp only [Vehicle.update]
  split
  · rfl
  · rw [update_safety_metrics_v0, update_position_v0, integrate_speed_v0]
    split
    · rw [update_lane_change_v0, update_lane_intent_v0, update_response_time_v0,
        update_anomaly_timer_v0]
    · rw [update_lane_intent_v0, update_response_time_v0, update_anomaly_timer_v0]

lemma clamp_speed_bounds (v0 x : ℝ) (h0 : 0 ≤ v0) :
    0 ≤ max 0 (min (v0 * 1.1) x) ∧ max 0 (min (v0 * 1.1) x) ≤ 1.1 * v0 := by
  constructor
  · exact le_max_left 0 _
  · have h1 : min (v0 * 1.1) x ≤ v0 * 1.1 := min_le_left _ _
    have h2 : (0:ℝ) ≤ v0 * 1.1 := by nlinarith
    calc max 0 (min (v0 * 1.1) x) ≤ v0 * 1.1 := max_le h2 h1
      _ = 1.1 * v0 := by ring

lemma update_speed_bounds (cfg : SimulationConfig) (dt t : ℝ) (nb : List Vehicle)
    (bl : List (ℤ × ℝ)) (v : Vehicle) (h0 : 0 ≤ v.v0) (hfin : v.finished = false) :
    0 ≤ (v.update cfg dt nb bl t).speed ∧
      (v.update cfg dt nb bl t).speed ≤ 1.1 * v.v0 := by
  simp only [Vehicle.update]
  rw [if_neg (by simp [hfin])]
  rw [update_safety_metrics_speed, update_position_speed]
  simp only [Vehicle.integrate_speed]
  have hv0 : ∀ w : Vehicle, w.v0 = v.v0 →
      0 ≤ max 0 (min (w.v0 * 1.1) (w.speed + w.update_accel
        (Vehicle.update_find_leader
          { v with lane_change_cooldown := v.lane_change_cooldown - dt } nb).1 dt * dt)) ∧
      max 0 (min (w.v0 * 1.1) (w.speed + w.update_accel
        (Vehicle.update_find_leader
          { v with lane_change_cooldown := v.lane_change_cooldown - dt } nb).1 dt * dt)) ≤
        1.1 * v.v0 := by
    intro w hw
    rw [hw]
    exact clamp_speed_bounds v.v0 _ h0
  split
  · apply hv0
    rw [update_lane_change_v0, update_lane_intent_v0, update_response_time_v0,
      update_anomaly_timer_v0]
  · apply hv0
    rw [update_lane_intent_v0, update_response_time_v0, update_anomaly_timer_v0]

lemma record_time_speed (v : Vehicle) (cfg : SimulationConfig) (t : ℝ) (seg : ℤ) :
    (v.record_time cfg t seg).speed = v.speed := by
  simp only [Vehicle.record_time]; split_ifs <;> rfl

lemma record_time_v0 (v : Vehicle) (cfg : SimulationConfig) (t : ℝ) (seg : ℤ) :
    (v.record_time cfg t seg).v0 = v.v0 := by
  simp only [Vehicle.record_time]; split_ifs <;> rfl

lemma record_time_finished_lt (v : Vehicle) (cfg : SimulationConfig) (t : ℝ) (seg : ℤ)
    (h : seg < cfg.num_segments) :
    (v.record_time cfg t seg).finished = v.finished := by
  simp only [Vehicle.record_time]
  split_ifs with h1 <;> first | exact absurd h1 (not_le.mpr h) | rfl

lemma record_time_finished_ge (v : Vehicle) (cfg : SimulationConfig) (t : ℝ) (seg : ℤ)
    (h : seg ≥ cfg.num_segments) :
    (v.record_time cfg t seg).finished = true := by
  simp only [Vehicle.record_time]
  rw [if_pos h]

lemma activate_anomaly_speed (v : Vehicle) (t : ℝ) (seg : ℤ) (g : Rng) :
    (v.activate_anomaly t seg g).2.1.speed = v.speed := by
  simp only [Vehicle.activate_anomaly]; split_ifs <;> rfl

lemma activate_anomaly_v0 (v : Vehicle) (t : ℝ) (seg : ℤ) (g : Rng) :
    (v.activate_anomaly t seg g).2.1.v0 = v.v0 := by
  simp only [Vehicle.activate_anomaly]; split_ifs <;> rfl

lemma activate_anomaly_finished (v : Vehicle) (t : ℝ) (seg : ℤ) (g : Rng) :
    (v.activate_anomaly t seg g).2.1.finished = v.finished := by
  simp only [Vehicle.activate_anomaly]; split_ifs <;> rfl

lemma trigger_anomaly_speed (v : Vehicle) (cfg : SimulationConfig) (t : ℝ)
    (seg : ℤ) (g : Rng) :
    (v.trigger_anomaly cfg t seg g).2.1.speed = v.speed := by
  simp only [Vehicle.trigger_anomaly]
  split_ifs <;> first | rfl | rw [activate_anomaly_speed]

lemma trigger_anomaly_v0 (v : Vehicle) (cfg : SimulationConfig) (t : ℝ)
    (seg : ℤ) (g : Rng) :
    (v.trigger_anomaly cfg t seg g).2.1.v0 = v.v0 := by
  simp only [Vehicle.trigger_anomaly]
  split_ifs <;> first | rfl | rw [activate_anomaly_v0]

lemma trigger_anomaly_finished (v : Vehicle) (cfg : SimulationConfig) (t : ℝ)
    (seg : ℤ) (g : Rng) :
    (v.trigger_anomaly cfg t seg g).2.1.finished = v.finished := by
  simp only [Vehicle.trigger_anomaly]
  split_ifs <;> first | rfl | rw [activate_anomaly_finished]

lemma update_of_finished (cfg : SimulationConfig) (dt t : ℝ) (nb : List Vehicle)
    (bl : List (ℤ × ℝ)) (v : Vehicle) (h : v.finished = true) :
    v.update cfg dt nb bl t = v := by
  simp only [Vehicle.update]
  rw [if_pos (by simp [h])]

lemma mobil_free_scan_gain (veh : Vehicle) (cfg : SimulationConfig)
    (nearby : List Vehicle) (blocked : List (ℤ × ℝ)) (leader : Option Vehicle)
    (target : ℤ)
    (h : veh.mobil_free_scan cfg nearby blocked leader =
      (some target, some LaneChangeReason.free)) :
    veh.calc_lane_gain target nearby leader >
      veh.calc_lane_gain veh.lane nearby leader + 0.1 := by
  simp only [Vehicle.mobil_free_scan] at h
  split_ifs at h with hB hA hA
  all_goals simp only [Prod.mk.injEq, Option.some.injEq] at h
  · obtain ⟨rfl, -⟩ := h
    linarith [hB.2.2.2, hA.2.2.2]
  · obtain ⟨rfl, -⟩ := h
    exact hB.2.2.2
  · obtain ⟨rfl, -⟩ := h
    exact hA.2.2.2
  · exact absurd h.1 (by simp)

lemma vehicle_init_pos (i : ℕ) (t : ℝ) (lane : ℤ) (cfg : SimulationConfig) (g : Rng) :
    (Vehicle.init i t lane cfg g).1.pos = 0 := rfl

lemma vehicle_init_finished (i : ℕ) (t : ℝ) (lane : ℤ) (cfg : SimulationConfig) (g : Rng) :
    (Vehicle.init i t lane cfg g).1.finished = false := rfl

lemma vehicle_init_v0_nonneg (i : ℕ) (t : ℝ) (lane : ℤ) (cfg : SimulationConfig) (g : Rng) :
    0 ≤ (Vehicle.init i t lane cfg g).1.v0 := by
  have h : (Vehicle.init i t lane cfg g).1.v0 =
      kmh_to_ms (vehicleTypeConfig (sampleVehicleType g).1).v0_kmh := rfl
  rw [h]
  cases (sampleVehicleType g).1 <;> norm_num [vehicleTypeConfig, kmh_to_ms]

lemma spawnAdmission_mem (cfg : SimulationConfig) (tnow : ℝ) :
    ∀ (fuel : ℕ) (st : SimulationEngine.SpawnPhase),
      ∀ u ∈ (SimulationEngine.spawnAdmission cfg tnow fuel st).vehicles,
        u ∈ st.vehicles ∨ (u.finished = false ∧ u.pos = 0 ∧ 0 ≤ u.v0) := by
  intro fuel
  induction fuel with
  | zero =>
    intro st u hu
    simp only [SimulationEngine.spawnAdmission] at hu
    exact Or.inl hu
  | succ n ih =>
    intro st u hu
    simp only [SimulationEngine.spawnAdmission] at hu
    split_ifs at hu with hc
    · split at hu
      · rcases ih _ u hu with hin | hfresh
        · rcases List.mem_append.mp hin with h1 | h1
          · exact Or.inl h1
          · rcases List.mem_singleton.mp h1 with rfl
            exact Or.inr ⟨vehicle_init_finished _ _ _ _ _, vehicle_init_pos _ _ _ _ _,
              vehicle_init_v0_nonneg _ _ _ _ _⟩
        · exact Or.inr hfresh
      · rcases ih _ u hu with hin | hfresh
        · exact Or.inl hin
        · exact Or.inr hfresh
    · exact Or.inl hu

lemma insertVehicleByPos_mem (v : Vehicle) (xs : List Vehicle) :
    ∀ u ∈ insertVehicleByPos v xs, u = v ∨ u ∈ xs := by
  induction xs with
  | nil =>
    intro u hu
    rcases List.mem_singleton.mp hu with rfl
    exact Or.inl rfl
  | cons y ys ih =>
    intro u hu
    simp only [insertVehicleByPos] at hu
    split_ifs at hu
    · rcases List.mem_cons.mp hu with rfl | h2
      · exact Or.inl rfl
      · exact Or.inr h2
    · rcases List.mem_cons.mp hu with rfl | h2
      · exact Or.inr (List.mem_cons_self _ _)
      · rcases ih u h2 with h3 | h3
        · exact Or.inl h3
        · exact Or.inr (List.mem_cons_of_mem _ h3)

lemma sortVehiclesByPos_mem (xs : List Vehicle) :
    ∀ u ∈ sortVehiclesByPos xs, u ∈ xs := by
  induction xs with
  | nil => intro u hu; exact absurd hu (List.not_mem_nil u)
  | cons y ys ih =>
    intro u hu
    have h : u ∈ insertVehicleByPos y (sortVehiclesByPos ys) := hu
    rcases insertVehicleByPos_mem y (sortVehiclesByPos ys) u h with rfl | h2
    · exact List.mem_cons_self _ _
    · exact List.mem_cons_of_mem _ (ih u h2)

lemma process_etc_transaction_speed (t : ℝ) (v : Vehicle) (gate : ℤ)
    (st : SimulationEngine.GantryState) :
    (SimulationEngine.process_etc_transaction t v gate st).1.speed = v.speed := by
  simp only [SimulationEngine.process_etc_transaction]
  split_ifs <;> rfl

lemma process_etc_transaction_v0 (t : ℝ) (v : Vehicle) (gate : ℤ)
    (st : SimulationEngine.GantryState) :
    (SimulationEngine.process_etc_transaction t v gate st).1.v0 = v.v0 := by
  simp only [SimulationEngine.process_etc_transaction]
  split_ifs <;> rfl

lemma gantry_step_speed (t : ℝ) (acc : Vehicle × SimulationEngine.GantryState) (gate : ℤ) :
    (SimulationEngine.gantry_step t acc gate).1.speed = acc.1.speed := by
  simp only [SimulationEngine.gantry_step]
  split_ifs with h
  · rw [process_etc_transaction_speed]
  · rfl

lemma gantry_step_v0 (t : ℝ) (acc : Vehicle × SimulationEngine.GantryState) (gate : ℤ) :
    (SimulationEngine.gantry_step t acc gate).1.v0 = acc.1.v0 := by
  simp only [SimulationEngine.gantry_step]
  split_ifs with h
  · rw [process_etc_transaction_v0]
  · rfl

lemma gantry_fold_speed (t : ℝ) (gates : List ℤ) :
    ∀ acc : Vehicle × SimulationEngine.GantryState,
      (gates.foldl (SimulationEngine.gantry_step t) acc).1.speed = acc.1.speed := by
  induction gates with
  | nil => intro acc; rfl
  | cons g0 gs ih =>
    intro acc
    rw [List.foldl_cons, ih, gantry_step_speed]

lemma gantry_fold_v0 (t : ℝ) (gates : List ℤ) :
    ∀ acc : Vehicle × SimulationEngine.GantryState,
      (gates.foldl (SimulationEngine.gantry_step t) acc).1.v0 = acc.1.v0 := by
  induction gates with
  | nil => intro acc; rfl
  | cons g0 gs ih =>
    intro acc
    rw [List.foldl_cons, ih, gantry_step_v0]

lemma processGantries_mem (t : ℝ) (gates : List ℤ) :
    ∀ (vs : List Vehicle) (st : SimulationEngine.GantryState),
      ∀ u ∈ (SimulationEngine.processGantries t gates vs st).1,
        ∃ w ∈ vs, u.speed = w.speed ∧ u.v0 = w.v0 := by
  intro vs
  induction vs with
  | nil =>
    intro st u hu
    exact absurd hu (List.not_mem_nil u)
  | cons v rest ih =>
    intro st u hu
    have hu2 : u ∈ (gates.foldl (SimulationEngine.gantry_step t) (v, st)).1 ::
        (SimulationEngine.processGantries t gates rest
          (gates.foldl (SimulationEngine.gantry_step t) (v, st)).2).1 := hu
    rcases List.mem_cons.mp hu2 with rfl | hu3
    · exact ⟨v, List.mem_cons_self v rest,
        gantry_fold_speed t gates (v, st), gantry_fold_v0 t gates (v, st)⟩
    · obtain ⟨w, hw, hs, h0⟩ := ih _ u hu3
      exact ⟨w, List.mem_cons_of_mem v hw, hs, h0⟩

lemma processVehicles_speed_bounds (cfg : SimulationConfig) (dt t : ℝ)
    (blocked : List (ℤ × ℝ)) (done pending : List Vehicle) (g : Rng)
    (logs : List AnomalyLog) (hseg : 1 ≤ cfg.num_segments)
    (hdone : ∀ u ∈ done, 0 ≤ u.speed ∧ u.speed ≤ 1.1 * u.v0)
    (hpend : ∀ u ∈ pending, u.finished = false ∧ 0 ≤ u.v0 ∧
      ((0 ≤ u.speed ∧ u.speed ≤ 1.1 * u.v0) ∨ u.pos = 0)) :
    ∀ u ∈ (SimulationEngine.processVehicles cfg dt t blocked done g logs pending).1,
      0 ≤ u.speed ∧ u.speed ≤ 1.1 * u.v0 := by
  induction pending generalizing done g logs with
  | nil =>
    intro u hu
    simp only [SimulationEngine.processVehicles] at hu
    exact hdone u hu
  | cons v rest ih =>
    simp only [SimulationEngine.processVehicles]
    obtain ⟨hvfin, hv0, hvI⟩ := hpend v (List.mem_cons_self v rest)
    set seg := pyInt (v.pos / (cfg.segment_length_km * 1000)) with hsegdef
    by_cases hlt : seg < cfg.num_segments
    · apply ih
      · intro u hu
        rcases List.mem_append.mp hu with hu | hu
        · exact hdone u hu
        · rcases List.mem_singleton.mp hu with rfl
          set v1 := v.record_time cfg t seg with hv1
          set v2 := (v1.trigger_anomaly cfg t seg g).2.1 with hv2
          have h2v0 : v2.v0 = v.v0 := by
            rw [hv2, trigger_anomaly_v0, hv1, record_time_v0]
          have h2fin : v2.finished = false := by
            rw [hv2, trigger_anomaly_finished, hv1,
              record_time_finished_lt _ _ _ _ hlt, hvfin]
          have hb := update_speed_bounds cfg dt t
            (SimulationEngine.neighborsOf cfg v2 (done ++ rest)) blocked v2
            (h2v0 ▸ hv0) h2fin
          have huv0 : (v2.update cfg dt
              (SimulationEngine.neighborsOf cfg v2 (done ++ rest)) blocked t).v0 = v.v0 := by
            rw [update_v0, h2v0]
          exact ⟨hb.1, by rw [huv0]; exact h2v0 ▸ hb.2⟩
      · intro u hu
        exact hpend u (List.mem_cons_of_mem v hu)
    · apply ih
      · intro u hu
        rcases List.mem_append.mp hu with hu | hu
        · exact hdone u hu
        · rcases List.mem_singleton.mp hu with rfl
          have hIv : 0 ≤ v.speed ∧ v.speed ≤ 1.1 * v.v0 := by
            rcases hvI with hIv | hpos
            · exact hIv
            · exfalso
              apply hlt
              rw [hsegdef, hpos]
              have hz : pyInt (0 / (cfg.segment_length_km * 1000)) = 0 := by
                rw [zero_div, pyInt, if_pos le_rfl, Int.floor_zero]
              rw [hz]
              omega
          set v1 := v.record_time cfg t seg with hv1
          set v2 := (v1.trigger_anomaly cfg t seg g).2.1 with hv2
          have h2fin : v2.finished = true := by
            rw [hv2, trigger_anomaly_finished, hv1,
              record_time_finished_ge _ _ _ _ (not_lt.mp hlt)]
          rw [update_of_finished _ _ _ _ _ _ h2fin]
          have h2speed : v2.speed = v.speed := by
            rw [hv2, trigger_anomaly_speed, hv1, record_time_speed]
          have h2v0 : v2.v0 = v.v0 := by
            rw [hv2, trigger_anomaly_v0, hv1, record_time_v0]
          rw [h2speed, h2v0]
          exact hIv
      · intro u hu
        exact hpend u (List.mem_cons_of_mem v hu)

lemma tickUpdate_bounds (e : EngineState) (idx : ℕ) (sched : List ℝ) (fuel : ℕ)
    (hseg : 1 ≤ e.cfg.num_segments)
    (hv : ∀ u ∈ e.vehicles, 0 ≤ u.speed ∧ u.speed ≤ 1.1 * u.v0) :
    ∀ u ∈ (SimulationEngine.tickUpdate e idx sched fuel).1,
      0 ≤ u.speed ∧ u.speed ≤ 1.1 * u.v0 := by
  intro u hu
  simp only [SimulationEngine.tickUpdate] at hu
  refine processVehicles_speed_bounds e.cfg e.cfg.simulation_dt e.current_time
    (SimulationEngine.tickBlocked e idx sched fuel) []
    (SimulationEngine.tickActive e idx sched fuel)
    (SimulationEngine.tickSpawn e idx sched fuel).rng [] hseg
    (fun w hw => absurd hw (List.not_mem_nil w)) ?_ u hu
  intro w hw
  simp only [SimulationEngine.tickActive] at hw
  have hw2 := sortVehiclesByPos_mem _ w hw
  have hw3 := List.mem_filter.mp hw2
  have hfin : w.finished = false := by simpa using hw3.2
  have hw4 := spawnAdmission_mem e.cfg e.current_time fuel
    { vehicles := e.vehicles
      id_counter := e.vehicle_id_counter
      rng := e.rng
      idx := idx
      sched := sched } w (by simpa [SimulationEngine.tickSpawn] using hw3.1)
  rcases hw4 with hold | hfresh
  · have hb := hv w hold
    have h0 : 0 ≤ w.v0 := by nlinarith [hb.1, hb.2]
    exact ⟨hfin, h0, Or.inl hb⟩
  · exact ⟨hfin, hfresh.2.2, Or.inr hfresh.2.1⟩

lemma tickGantries_bounds (e : EngineState) (idx : ℕ) (sched : List ℝ) (fuel : ℕ)
    (hseg : 1 ≤ e.cfg.num_segments)
    (hv : ∀ u ∈ e.vehicles, 0 ≤ u.speed ∧ u.speed ≤ 1.1 * u.v0) :
    ∀ u ∈ (SimulationEngine.tickGantries e idx sched fuel).1,
      0 ≤ u.speed ∧ u.speed ≤ 1.1 * u.v0 := by
  intro u hu
  simp only [SimulationEngine.tickGantries] at hu
  obtain ⟨w, hw, hs, h0⟩ := processGantries_mem _ _ _ _ u hu
  have hb := tickUpdate_bounds e idx sched fuel hseg hv w hw
  rw [hs, h0]
  exact hb

/-! ## Claim theorems -/

/-- C1: the claim states that on every constructed SimulationEngine with
current_time below max_simulation_time, step() completes a tick without
raising, including the very first call on a freshly constructed engine.
The code contradicts it: `step` reads `self.spawn_idx` and
`self.spawn_schedule`, which `__init__` never assigns, so the first call
on a fresh engine raises AttributeError before any tick work. -/
theorem C1_step_on_fresh_engine_raises (cfg : SimulationConfig)
    (seed initfuel fuel : ℕ) (h : 0 < cfg.max_simulation_time) :
    (SimulationEngine.init cfg ⟨seed, 0⟩ initfuel).current_time <
      cfg.max_simulation_time ∧
    SimulationEngine.step (SimulationEngine.init cfg ⟨seed, 0⟩ initfuel) fuel =
      Except.error PyError.attributeError := by
  have hct : (SimulationEngine.init cfg ⟨seed, 0⟩ initfuel).current_time = 0 := rfl
  have hcfg : (SimulationEngine.init cfg ⟨seed, 0⟩ initfuel).cfg = cfg := rfl
  have hsi : (SimulationEngine.init cfg ⟨seed, 0⟩ initfuel).spawn_idx = none := rfl
  refine ⟨by rw [hct]; exact h, ?_⟩
  simp only [SimulationEngine.step, hct, hcfg, hsi]
  rw [if_neg (not_le.mpr h)]

/-- Witness for C1 at the default configuration. -/
theorem C1_step_on_fresh_engine_raises_witness :
    (0:ℝ) < defaultConfig.max_simulation_time ∧
    ((SimulationEngine.init defaultConfig ⟨42, 0⟩ 100).current_time <
      defaultConfig.max_simulation_time ∧
    SimulationEngine.step (SimulationEngine.init defaultConfig ⟨42, 0⟩ 100) 100 =
      Except.error PyError.attributeError) :=
  ⟨by norm_num [defaultConfig],
   C1_step_on_fresh_engine_raises defaultConfig 42 100 100 (by norm_num [defaultConfig])⟩

/-- C2: with the configuration and the seed fixed, two runs of the
simulation produce identical anomaly_logs, trajectory_data and
rule-engine event sequences: the embedded run is a pure function of the
configuration and the seeded generator, every stochastic choice drawing
from the one generator threaded through the engine. -/
theorem C2_run_deterministic (cfg : SimulationConfig) (fuel seed1 seed2 : ℕ)
    (h : seed1 = seed2) :
    (SimulationEngine.run cfg seed1 fuel).anomaly_logs =
      (SimulationEngine.run cfg seed2 fuel).anomaly_logs ∧
    (SimulationEngine.run cfg seed1 fuel).trajectory_data =
      (SimulationEngine.run cfg seed2 fuel).trajectory_data ∧
    (SimulationEngine.run cfg seed1 fuel).rule_engine_events =
      (SimulationEngine.run cfg seed2 fuel).rule_engine_events := by
  subst h
  exact ⟨rfl, rfl, rfl⟩

/-- Witness for C2 at the default configuration and seed 42. -/
theorem C2_run_deterministic_witness :
    (SimulationEngine.run defaultConfig 42 5).anomaly_logs =
      (SimulationEngine.run defaultConfig 42 5).anomaly_logs ∧
    (SimulationEngine.run defaultConfig 42 5).trajectory_data =
      (SimulationEngine.run defaultConfig 42 5).trajectory_data ∧
    (SimulationEngine.run defaultConfig 42 5).rule_engine_events =
      (SimulationEngine.run defaultConfig 42 5).rule_engine_events :=
  C2_run_deterministic defaultConfig 5 42 42 rfl

/-- C3 counterexample: the claim states that with no leader the IDM kernel
returns `a_max * (1 - (v / v0) ^ delta)`.  At speed v = v0 that formula
is 0, but both kernels (`Vehicle.idm_calc_acceleration` and
`IDMModel.calc_acceleration`) return the constant a_max = 3. -/
theorem C3_free_flow_counterexample :
    Vehicle.idm_calc_acceleration testCar none (kmh_to_ms 120) = 3 ∧
    IDMModel.calc_acceleration testCar none (kmh_to_ms 120) = 3 ∧
    specFreeFlowAccel testCar (kmh_to_ms 120) = 0 ∧
    Vehicle.idm_calc_acceleration testCar none (kmh_to_ms 120) ≠
      specFreeFlowAccel testCar (kmh_to_ms 120) := by
  have h1 : Vehicle.idm_calc_acceleration testCar none (kmh_to_ms 120) = 3 := by
    simp only [Vehicle.idm_calc_acceleration, testCar]
    norm_num
  have h1b : IDMModel.calc_acceleration testCar none (kmh_to_ms 120) = 3 := by
    simp only [IDMModel.calc_acceleration, testCar]
    norm_num
  have h2 : specFreeFlowAccel testCar (kmh_to_ms 120) = 0 := by
    simp only [specFreeFlowAccel, testCar, kmh_to_ms]
    norm_num
  exact ⟨h1, h1b, h2, by rw [h1, h2]; norm_num⟩

/-- C3 amended: with no leader either IDM kernel returns the constant
a_max, independent of the current speed (it does not approach 0 as v
approaches v0 and is never negative for v above v0). -/
theorem C3_free_flow_returns_a_max (veh : Vehicle) (v : ℝ) :
    Vehicle.idm_calc_acceleration veh none v = veh.a_max ∧
    IDMModel.calc_acceleration veh none v = veh.a_max :=
  ⟨rfl, rfl⟩

/-- C4 counterexample: during a vehicle update the lane-change decision is
`Vehicle.mobil_decision`, which selects a non-forced candidate on the
fixed margin 0.1 over the current lane's gain, with no politeness or
follower term.  In this concrete scene lane 1 is selected as a free
change although the claimed politeness-adjusted MOBIL utility
(0.113715) does not exceed the claimed threshold `0.1 + 0.4 * (1 -
politeness)` = 0.3 relative to the current lane's utility (0); the
politeness-aware `MOBILModel.decide_lane_change` would indeed decline
the change in the same scene. -/
theorem C4_mobil_counterexample :
    testCar.mobil_decision defaultConfig [testLeaderA, testLeaderB] [] =
      (some 1, some LaneChangeReason.free) ∧
    ¬ (specMobilUtility testCar 1 [testLeaderA, testLeaderB] >
        specMobilUtility testCar 0 [testLeaderA, testLeaderB] +
          specMobilThreshold testCar) ∧
    MOBILModel.decide_lane_change testCar [testLeaderA, testLeaderB] 0 []
      testCar.politeness = (none, none) := by
  refine ⟨?_, ?_, ?_⟩
  · norm_num [Vehicle.mobil_decision, Vehicle.find_leader, Vehicle.find_leader_in_lane,
      Vehicle.mobil_free_scan, Vehicle.calc_lane_gain, Vehicle.can_change_to,
      Vehicle.idm_calc_acceleration, Vehicle.try_forced_lane_change,
      testCar, testLeaderA, testLeaderB, defaultConfig, max_def, min_def, abs_lt]
  · norm_num [specMobilUtility, specMobilThreshold, Vehicle.find_leader,
      Vehicle.find_leader_in_lane, Vehicle.find_follower_in_lane,
      Vehicle.idm_calc_acceleration, testCar, testLeaderA, testLeaderB, max_def, min_def]
  · norm_num [MOBILModel.decide_lane_change, MOBILModel.find_leader,
      MOBILModel.find_follower, MOBILModel.calc_lane_gain, MOBILModel.can_change_to,
      MOBILModel.try_emergency_change, Vehicle.idm_calc_acceleration,
      testCar, testLeaderA, testLeaderB, max_def, min_def, abs_lt]

/-- C4 amended: for every non-forced lane-change decision taken during a
vehicle update, the selected candidate lane's gain (a_new - a_current,
with an empty target lane valued at a flat 1.0 and no politeness or
follower term) exceeds the current lane's gain by the fixed margin 0.1. -/
theorem C4_free_lane_change_gain_threshold (veh : Vehicle)
    (cfg : SimulationConfig) (nearby : List Vehicle) (blocked : List (ℤ × ℝ))
    (target : ℤ)
    (h : veh.mobil_decision cfg nearby blocked =
      (some target, some LaneChangeReason.free)) :
    veh.calc_lane_gain target nearby (veh.find_leader nearby) >
      veh.calc_lane_gain veh.lane nearby (veh.find_leader nearby) + 0.1 := by
  unfold Vehicle.mobil_decision at h
  rcases hfl : veh.find_leader nearby with - | l
  · simp only [hfl] at h
    exact mobil_free_scan_gain veh cfg nearby blocked none target h
  · simp only [hfl] at h
    by_cases hforced : l.anomaly_type = 1 ∧ l.pos - veh.pos < cfg.forced_change_dist
    · rw [if_pos hforced] at h
      exfalso
      simp only [Vehicle.try_forced_lane_change] at h
      split_ifs at h <;> simp_all
    · rw [if_neg hforced] at h
      exact mobil_free_scan_gain veh cfg nearby blocked (some l) target h

/-- Witness for C4 amended at the concrete scene of the counterexample. -/
theorem C4_free_lane_change_gain_threshold_witness :
    testCar.mobil_decision defaultConfig [testLeaderA, testLeaderB] [] =
      (some 1, some LaneChangeReason.free) ∧
    testCar.calc_lane_gain 1 [testLeaderA, testLeaderB]
        (testCar.find_leader [testLeaderA, testLeaderB]) >
      testCar.calc_lane_gain testCar.lane [testLeaderA, testLeaderB]
        (testCar.find_leader [testLeaderA, testLeaderB]) + 0.1 := by
  have hdec : testCar.mobil_decision defaultConfig [testLeaderA, testLeaderB] [] =
      (some 1, some LaneChangeReason.free) := by
    norm_num [Vehicle.mobil_decision, Vehicle.find_leader, Vehicle.find_leader_in_lane,
      Vehicle.mobil_free_scan, Vehicle.calc_lane_gain, Vehicle.can_change_to,
      Vehicle.idm_calc_acceleration, Vehicle.try_forced_lane_change,
      testCar, testLeaderA, testLeaderB, defaultConfig, max_def, min_def, abs_lt]
  exact ⟨hdec, C4_free_lane_change_gain_threshold testCar defaultConfig
    [testLeaderA, testLeaderB] [] 1 hdec⟩

/-- C5 counterexample: gate G04 has a full (50-entry) travel-time ring
buffer; vehicle 7 arrives with travel time 100 s, whose z-score against
the updated statistics is 7 > 2 and whose ratio 100 / 11.8 exceeds 1.5,
yet `record_transaction` returns no alert at all: the consecutive-outlier
count (now 1) is an additional firing condition, not only a severity
modifier. -/
theorem C5_full_buffer_outlier_counterexample :
    testGateStat.recent_travel_times.length = 50 ∧
    (alistLookup (testDetector.record_transaction testTx).2.gate_stats 4).map
      GateStatistics.avg_travel_time = some (59/5) ∧
    (alistLookup (testDetector.record_transaction testTx).2.gate_stats 4).map
      GateStatistics.std_travel_time = some 12.6 ∧
    ((200 - 100 : ℝ) - 59/5) / 12.6 > 2.0 ∧
    (200 - 100 : ℝ) > (59/5) * 1.5 ∧
    (testDetector.record_transaction testTx).1 = none := by
  have hdq : dequePush 50 (List.replicate 50 (10:ℝ)) (200 - 100) =
      List.replicate 49 10 ++ [100] := by
    show dequePush 50 (List.replicate (49+1) (10:ℝ)) (200 - 100) =
      List.replicate 49 10 ++ [100]
    rw [dequePush, List.replicate_succ]
    norm_num
  have hsum : (List.replicate 49 (10:ℝ) ++ [100]).sum = 590 := by
    rw [List.sum_append, List.sum_replicate]
    simp [nsmul_eq_mul]
    norm_num
  have hsq2 : Real.sqrt 3969 / Real.sqrt 25 = 12.6 := by
    rw [show (3969:ℝ) = 63 ^ 2 by norm_num, Real.sqrt_sq (by norm_num : (0:ℝ) ≤ 63),
      show (25:ℝ) = 5 ^ 2 by norm_num, Real.sqrt_sq (by norm_num : (0:ℝ) ≤ 5)]
    norm_num
  refine ⟨by simp [testGateStat], ?_, ?_, by norm_num, by norm_num, ?_⟩ <;>
  · simp only [ETCAnomalyDetector.record_transaction, testDetector, testTx, testGateStat,
      alistLookup, alistSet, dequePush, GateStatistics.init,
      ETCAnomalyDetector.register_gate, ETCAnomalyDetector.check_travel_time_outlier,
      ETCAnomalyDetector.check_speed_anomaly]
    norm_num [hdq, hsum, hsq2, List.sum_replicate, List.map_append, List.map_replicate,
      List.sum_append, nsmul_eq_mul]

/-- C5 amended: when the standard deviation passes the 0.1 guard and the
incoming travel time is an outlier (z-score above 2 or ratio above 1.5),
the travel-time check fires a congestion alert if and only if the
consecutive-outlier streak reaches 3 with this transaction; the streak
reaching 5 only raises the severity to high. -/
theorem C5_outlier_alert_iff_streak (gs : GateStatistics) (tt : ℝ)
    (tx : ETCTransaction) (hstd : ¬ gs.std_travel_time < 0.1)
    (hout : (tt - gs.avg_travel_time) / gs.std_travel_time > 2.0 ∨
      tt > gs.avg_travel_time * 1.5) :
    ((ETCAnomalyDetector.check_travel_time_outlier gs tt tx).1.isSome ↔
      gs.consecutive_outliers + 1 ≥ 3) ∧
    ∀ a ∈ (ETCAnomalyDetector.check_travel_time_outlier gs tt tx).1,
      a.alert_type = AlertType.congestion ∧
      (a.severity = Severity.high ↔ gs.consecutive_outliers + 1 ≥ 5) := by
  unfold ETCAnomalyDetector.check_travel_time_outlier
  rw [if_neg hstd, if_pos hout]
  by_cases hc : gs.consecutive_outliers + 1 ≥ 3
  · rw [if_pos hc]
    by_cases h5 : gs.consecutive_outliers + 1 ≥ 5
    · rw [if_pos h5]
      simp [hc, h5]
    · rw [if_neg h5]
      simp [hc, h5]
  · rw [if_neg hc]
    simp [hc]

/-- Witness for C5 amended: with two outliers already in a row the third
outlier fires a congestion alert of medium severity. -/
theorem C5_outlier_alert_iff_streak_witness :
    ¬ testGateStatStreak.std_travel_time < 0.1 ∧
    ((100 - testGateStatStreak.avg_travel_time) / testGateStatStreak.std_travel_time > 2.0 ∨
      (100:ℝ) > testGateStatStreak.avg_travel_time * 1.5) ∧
    (((ETCAnomalyDetector.check_travel_time_outlier testGateStatStreak 100 testTx).1.isSome ↔
      testGateStatStreak.consecutive_outliers + 1 ≥ 3) ∧
    ∀ a ∈ (ETCAnomalyDetector.check_travel_time_outlier testGateStatStreak 100 testTx).1,
      a.alert_type = AlertType.congestion ∧
      (a.severity = Severity.high ↔ testGateStatStreak.consecutive_outliers + 1 ≥ 5)) := by
  have h1 : ¬ testGateStatStreak.std_travel_time < 0.1 := by
    norm_num [testGateStatStreak, testGateStat]
  have h2 : (100 - testGateStatStreak.avg_travel_time) / testGateStatStreak.std_travel_time > 2.0 ∨
      (100:ℝ) > testGateStatStreak.avg_travel_time * 1.5 := by
    left
    norm_num [testGateStatStreak, testGateStat]
  exact ⟨h1, h2, C5_outlier_alert_iff_streak testGateStatStreak 100 testTx h1 h2⟩

/-- C6: the speed invariant at tick boundaries.  If every active vehicle
of an engine state has speed in [0, 1.1 * v0], then after one full tick
of the main loop — spawn admission (whose fresh vehicles enter at
position 0 with a sampled initial speed that may exceed the bound), the
sorted per-vehicle update loop ending in the kinematic clamp
`max(0, min(1.1 * v0, speed + accel * dt))`, the gantry loop (which
never touches speed) and the retirement of finished vehicles — every
active vehicle again has speed in [0, 1.1 * v0].  With the freshly
constructed engine holding no vehicles, the bound therefore holds at
every observable tick boundary. -/
theorem C6_tick_speed_invariant (e : EngineState) (idx : ℕ) (sched : List ℝ)
    (fuel : ℕ) (hseg : 1 ≤ e.cfg.num_segments)
    (hv : ∀ u ∈ e.vehicles, 0 ≤ u.speed ∧ u.speed ≤ 1.1 * u.v0) :
    ∀ u ∈ (SimulationEngine.tickBody e idx sched fuel).engine.vehicles,
      0 ≤ u.speed ∧ u.speed ≤ 1.1 * u.v0 := by
  intro u hu
  have hu2 : u ∈ (SimulationEngine.tickGantries e idx sched fuel).1.filter
      (fun v => ¬ v.finished) := hu
  exact tickGantries_bounds e idx sched fuel hseg hv u (List.mem_filter.mp hu2).1

/-- Witness for C6: one tick on a concrete engine state with one stopped
car keeps every active vehicle inside the speed bound. -/
theorem C6_tick_speed_invariant_witness :
    1 ≤ testEngine.cfg.num_segments ∧
    (∀ u ∈ testEngine.vehicles, 0 ≤ u.speed ∧ u.speed ≤ 1.1 * u.v0) ∧
    ∀ u ∈ (SimulationEngine.tickBody testEngine 0 [] 1).engine.vehicles,
      0 ≤ u.speed ∧ u.speed ≤ 1.1 * u.v0 := by
  have hc : testEngine.cfg = defaultConfig := rfl
  have hseg : 1 ≤ testEngine.cfg.num_segments := by
    rw [hc, SimulationConfig.num_segments,
      show defaultConfig.road_length_km / defaultConfig.segment_length_km = ((10:ℤ):ℝ) by
        norm_num [defaultConfig],
      pyInt, if_pos (by norm_num), Int.floor_intCast]
    norm_num
  have hv : ∀ u ∈ testEngine.vehicles, 0 ≤ u.speed ∧ u.speed ≤ 1.1 * u.v0 := by
    intro u hu
    have hu2 : u ∈ [testCar] := hu
    rcases List.mem_singleton.mp hu2 with rfl
    norm_num [testCar, kmh_to_ms]
  exact ⟨hseg, hv, C6_tick_speed_invariant testEngine 0 [] 1 hseg hv⟩

end EtcSim
